import Mathlib

/-!
Verification of the forecasting ensemble engine of the energy-forecasting
repository.  The definitions below are a shallow embedding of
backend/forecasting_algorithms.py (class EnergyForecastingAlgorithms) and of
the length guard in backend/simple_main.py.  Floating-point numbers are
modelled as exact rationals: every operation the Python code performs on them
is field arithmetic, except the square root inside np.std, which is modelled
over the reals.  Decimal constants of the source are written as fractions
(0.3 = 3/10, 0.15 = 15/100, 1.96 = 49/25, and so on).
-/

/-- np.mean over a list of rationals: sum divided by length.  The call sites
below only apply it to nonempty lists (np.mean of an empty array is NaN in
Python; here division by zero yields 0, and the theorems carry nonemptiness
hypotheses wherever the branch could otherwise see an empty list). -/
def npMean (l : List ℚ) : ℚ := l.sum / l.length

/-- moving_average(data, window=24), lines 15-19: mean of the last
window values, or of the whole series when it is shorter than the window.
Python data[-window:] is the suffix of length window (the guard ensures
window <= len and the source only uses window = 24 > 0). -/
def moving_average (data : List ℚ) (window : ℕ) : ℚ :=
  if data.length < window then npMean data
  else npMean (data.drop (data.length - window))

/-- exponential_smoothing(data, alpha=0.3), lines 21-29: result = data[0],
then result = alpha * value + (1 - alpha) * result over the remaining
values; empty series gives 0. -/
def exponential_smoothing (data : List ℚ) (alpha : ℚ) : ℚ :=
  match data with
  | [] => 0
  | x :: rest => rest.foldl (fun result value => alpha * value + (1 - alpha) * result) x

/-- The Holt-Winters update loop of lines 43-47: iterate over the remaining
data values (rest), carrying the running index i, the level, the trend and
the seasonal list.  Each step reads seasonal[i mod season_length], updates
level and trend, then overwrites seasonal[i mod season_length] using the new
level, exactly as the Python loop body does. -/
def hwGo (alpha beta gamma : ℚ) (season_length : ℕ) :
    ℕ → List ℚ → ℚ → ℚ → List ℚ → ℚ × ℚ × List ℚ
  | _, [], level, trend, seasonal => (level, trend, seasonal)
  | i, x :: rest, level, trend, seasonal =>
    let s := seasonal.getD (i % season_length) 0
    let level2 := alpha * (x - s) + (1 - alpha) * (level + trend)
    let trend2 := beta * (level2 - level) + (1 - beta) * trend
    let seasonal2 := seasonal.set (i % season_length)
      (gamma * (x - level2) + (1 - gamma) * s)
    hwGo alpha beta gamma season_length (i + 1) rest level2 trend2 seasonal2

/-- holt_winters(data, season_length=24, alpha=0.3, beta=0.1, gamma=0.1),
lines 31-49.  Short series (length < 2 * season_length) delegate to
exponential smoothing; otherwise level, trend and the seasonal list are
initialised from the first two season blocks, the update loop runs from index
season_length to the end, and the forecast is level + trend + seasonal[0]. -/
def holt_winters (data : List ℚ) (season_length : ℕ) (alpha beta gamma : ℚ) : ℚ :=
  if data.length < season_length * 2 then exponential_smoothing data alpha
  else
    let level := npMean (data.take season_length)
    let trend := (npMean ((data.drop season_length).take season_length)
      - npMean (data.take season_length)) / (season_length : ℚ)
    let seasonal := (data.take season_length).map (fun v => v - level)
    let final := hwGo alpha beta gamma season_length season_length
      (data.drop season_length) level trend seasonal
    final.1 + final.2.1 + final.2.2.getD 0 0

/-- np.diff: one round of first-differencing, diff[i] = data[i+1] - data[i]. -/
def diffList (l : List ℚ) : List ℚ := l.tail.zipWith (fun a b => a - b) l

/-- arima_simple(data, p=1, d=1, q=1), lines 118-139: mean fallback for very
short series, d-fold differencing, last raw value when the differenced series
is shorter than max(p, q), otherwise the fixed geometric AR term
sum over i in range(1, min(p + 1, len(diff) + 1)) of 0.5^i * diff[-i] added
to the last raw value and floor-clamped at 0.  Python data[-1] is written
data.getD (data.length - 1) 0 (the branches only reach it on nonempty data
for the parameter values used by the ensemble). -/
def arima_simple (data : List ℚ) (p d q : ℕ) : ℚ :=
  if data.length < max p q + d then npMean data
  else
    let diff_data := diffList^[d] data
    if diff_data.length < max p q then data.getD (data.length - 1) 0
    else
      let ar_prediction := ((List.range' 1 (min (p + 1) (diff_data.length + 1) - 1)).map
        (fun i => (1 / 2 : ℚ) ^ i * diff_data.getD (diff_data.length - i) 0)).sum
      max 0 (data.getD (data.length - 1) 0 + ar_prediction)

/-- The centered moving-average trend of seasonal_decomposition_forecast,
lines 88-94: trend[i] = mean of data[max(0, i - period//2) : min(n, i + period//2 + 1)].
Natural-number subtraction realises the max with 0. -/
def sdTrend (data : List ℚ) (period : ℕ) : List ℚ :=
  (List.range data.length).map (fun i =>
    let start := i - period / 2
    let stop := min data.length (i + period / 2 + 1)
    npMean ((data.drop start).take (stop - start)))

/-- The stride slice detrended[i::period] used on line 102: every
period-th element starting from the head of the given list. -/
def everyNth (step : ℕ) : List ℚ → List ℚ
  | [] => []
  | x :: xs => x :: everyNth step (xs.drop (step - 1))
termination_by l => l.length
decreasing_by
  simp only [List.length_drop, List.length_cons]
  omega

/-- seasonal_decomposition_forecast(data, period=24), lines 80-116, prediction
field: mean fallback below 3 periods; otherwise centered moving-average trend,
detrending, per-phase seasonal means (0 for an empty phase), linear trend
extrapolation trend[-1] + (trend[-1] - trend[-2]) (just trend[-1] when only
one trend point exists), seasonal index len(data) mod period, and a floor
clamp at 0.  The metadata fields (trend, seasonal, trend_direction) are not
modelled; no claim mentions them. -/
def seasonal_decomposition_forecast (data : List ℚ) (period : ℕ) : ℚ :=
  if data.length < period * 3 then npMean data
  else
    let trend := sdTrend data period
    let detrended := data.zipWith (fun a b => a - b) trend
    let next_trend := if 1 < trend.length then
        trend.getD (trend.length - 1) 0
          + (trend.getD (trend.length - 1) 0 - trend.getD (trend.length - 2) 0)
      else trend.getD (trend.length - 1) 0
    let vals := everyNth period (detrended.drop (data.length % period))
    let next_seasonal := if vals.length = 0 then 0 else npMean vals
    max 0 (next_trend + next_seasonal)

/-- One row of the DataFrame built in enhanced_prediction (simple_main.py,
lines 72-84): consumption plus the feature columns used by the regression. -/
structure Row where
  consumption : ℚ
  hour : ℤ
  day_of_week : ℤ
  day_of_year : ℤ
  month : ℤ
  temperature : ℚ
  humidity : ℚ
deriving DecidableEq

/-- Dot product of two rational lists (componentwise product, summed). -/
def dot (a b : List ℚ) : ℚ := (a.zipWith (fun x y => x * y) b).sum

/-- Gaussian elimination on an augmented system (row = coefficients paired
with right-hand side) solving for m variables.  Used to model the least
squares solve inside sklearn LinearRegression: when the normal equations are
nonsingular this is the unique ordinary-least-squares solution; a column with
no usable pivot gets coefficient 0. -/
def gaussAux : ℕ → List (List ℚ × ℚ) → List ℚ
  | 0, _ => []
  | m + 1, rows =>
    match rows.find? (fun r => r.1.headD 0 != 0) with
    | none => 0 :: gaussAux m (rows.map (fun r => (r.1.tail, r.2)))
    | some piv =>
      let rest := rows.erase piv
      let reduced := rest.map (fun r =>
        let k := r.1.headD 0 / piv.1.headD 0
        (r.1.tail.zipWith (fun a b => a - k * b) piv.1.tail, r.2 - k * piv.2))
      let xs := gaussAux m reduced
      ((piv.2 - dot piv.1.tail xs) / piv.1.headD 0) :: xs

/-- Solve A x = b by Gaussian elimination (A given as a list of rows). -/
def gaussSolve (A : List (List ℚ)) (b : List ℚ) : List ℚ := gaussAux A.length (A.zip b)

/-- The five feature columns of the frame df[features] of line 58, in column
(pandas Series) form: hour, day_of_week, day_of_year, temperature, humidity. -/
def featureCols (df : List Row) : List (List ℚ) :=
  [df.map (fun r => (r.hour : ℚ)),
   df.map (fun r => (r.day_of_week : ℚ)),
   df.map (fun r => (r.day_of_year : ℚ)),
   df.map Row.temperature,
   df.map Row.humidity]

/-- The fitted coefficients of model.fit(X, y) in
linear_regression_forecast, lines 62-63: sklearn LinearRegression with an
intercept, modelled in its standard centered form - center the feature
columns and the target, then solve the normal equations by Gaussian
elimination (the unique ordinary-least-squares solution whenever the normal
equations are nonsingular). -/
def lrCoef (df : List Row) : List ℚ :=
  let y := df.map Row.consumption
  let xMeans := (featureCols df).map npMean
  let cols := (featureCols df).zipWith (fun col m => col.map (fun v => v - m)) xMeans
  let yMean := npMean y
  let yc := y.map (fun v => v - yMean)
  let A := cols.map (fun cj => cols.map (fun ck => dot cj ck))
  let b := cols.map (fun cj => dot cj yc)
  gaussSolve A b

/-- The fitted intercept: mean of the target minus the feature means dotted
with the coefficients. -/
def lrIntercept (df : List Row) : ℚ :=
  npMean (df.map Row.consumption) - dot ((featureCols df).map npMean) (lrCoef df)

/-- linear_regression_forecast(df), lines 51-78, prediction field: mean
fallback below 10 rows; otherwise ordinary least squares of consumption
against the five features with an intercept (lrCoef, lrIntercept), then
predict on the last row with hour advanced by (hour + 1) mod 24 and
floor-clamp at 0.  The fillna step of line 58 is the identity here
because every Row carries all attributes (enhanced_prediction fills the
defaults before the call).  The confidence and feature_importance fields are
not modelled; no claim mentions them. -/
def linear_regression_forecast (df : List Row) : ℚ :=
  if df.length < 10 then npMean (df.map Row.consumption)
  else
    let lastRow := df.getLastD ⟨0, 0, 0, 0, 0, 0, 0⟩
    let nextRow := [(((lastRow.hour + 1) % 24 : ℤ) : ℚ), (lastRow.day_of_week : ℚ),
      (lastRow.day_of_year : ℚ), lastRow.temperature, lastRow.humidity]
    max 0 (lrIntercept df + dot nextRow (lrCoef df))

/-- The consumption column df[consumption].tolist() of line 143. -/
def consumptions (df : List Row) : List ℚ := df.map Row.consumption

/-- The six algorithms of the ensemble, as named by the weight table of
lines 162-169. -/
inductive Algorithm
  | moving_average
  | exponential_smoothing
  | holt_winters
  | linear_regression
  | seasonal_decomposition
  | arima
deriving DecidableEq

/-- The fixed weight table of lines 162-169 (0.15, 0.20, 0.25, 0.20, 0.15,
0.05 as exact fractions). -/
def algorithmWeight : Algorithm → ℚ
  | .moving_average => 15 / 100
  | .exponential_smoothing => 20 / 100
  | .holt_winters => 25 / 100
  | .linear_regression => 20 / 100
  | .seasonal_decomposition => 15 / 100
  | .arima => 5 / 100

/-- Sum of all six entries of the weight table. -/
def ensembleWeightsSum : ℚ :=
  ([Algorithm.moving_average, Algorithm.exponential_smoothing, Algorithm.holt_winters,
    Algorithm.linear_regression, Algorithm.seasonal_decomposition, Algorithm.arima].map
    algorithmWeight).sum

/-- The six individual predictions of ensemble_forecast, lines 146-159, in
the insertion order of the Python dict: moving_average, exponential_smoothing,
holt_winters, arima, linear_regression, seasonal_decomposition, each called
with the default parameters of its source function. -/
def individual_predictions (df : List Row) : List ℚ :=
  [moving_average (consumptions df) 24,
   exponential_smoothing (consumptions df) (3 / 10),
   holt_winters (consumptions df) 24 (3 / 10) (1 / 10) (1 / 10),
   arima_simple (consumptions df) 1 1 1,
   linear_regression_forecast df,
   seasonal_decomposition_forecast (consumptions df) 24]

/-- ensemble_prediction, line 172: the weighted sum of the six individual
predictions with the weights of the table. -/
def ensemble_prediction (df : List Row) : ℚ :=
  moving_average (consumptions df) 24 * (15 / 100)
  + exponential_smoothing (consumptions df) (3 / 10) * (20 / 100)
  + holt_winters (consumptions df) 24 (3 / 10) (1 / 10) (1 / 10) * (25 / 100)
  + arima_simple (consumptions df) 1 1 1 * (5 / 100)
  + linear_regression_forecast df * (20 / 100)
  + seasonal_decomposition_forecast (consumptions df) 24 * (15 / 100)

/-- The radicand of np.std on line 176: the mean of the squared deviations
from the mean (population variance). -/
def prediction_variance_sq (preds : List ℚ) : ℚ :=
  npMean (preds.map (fun x => (x - npMean preds) ^ 2))

/-- np.std(pred_values), line 176: square root of the population variance.
The square root is the single non-rational operation of the module, hence the
passage to the reals. -/
noncomputable def prediction_std (preds : List ℚ) : ℝ :=
  Real.sqrt ((prediction_variance_sq preds : ℚ) : ℝ)

/-- confidence_interval.lower, line 182: ensemble_prediction - 1.96 * std,
with 1.96 = 49/25; not floor-clamped. -/
noncomputable def confidence_lower (df : List Row) : ℝ :=
  ((ensemble_prediction df : ℚ) : ℝ) - (49 / 25) * prediction_std (individual_predictions df)

/-- confidence_interval.upper, line 183: ensemble_prediction + 1.96 * std. -/
noncomputable def confidence_upper (df : List Row) : ℝ :=
  ((ensemble_prediction df : ℚ) : ℝ) + (49 / 25) * prediction_std (individual_predictions df)

/-- The result dict of ensemble_forecast, lines 178-189 (the regression and
seasonal detail blocks are carried by their prediction values inside
individual_predictions; no claim mentions the other metadata). -/
structure EnsembleResult where
  ensemble_prediction : ℚ
  individual_predictions : List ℚ
  confidence_lower : ℝ
  confidence_upper : ℝ
  prediction_variance : ℝ
  algorithm_weights : Algorithm → ℚ

/-- The error surfaced by simple_main.py for series shorter than 10 points
(ValueError in enhanced_prediction line 68, HTTP 400 in
predict_energy_consumption lines 119-120). -/
inductive ForecastError
  | insufficientData
deriving DecidableEq

/-- The ensemble entry point as exposed by simple_main.py: reject series
shorter than 10 points with InsufficientData, otherwise run
ensemble_forecast and return its result. -/
noncomputable def forecast_ensemble (data : List Row) : Except ForecastError EnsembleResult :=
  if data.length < 10 then .error .insufficientData
  else .ok ⟨ensemble_prediction data, individual_predictions data,
    confidence_lower data, confidence_upper data,
    prediction_std (individual_predictions data), algorithmWeight⟩

/-- The Holt-Winters recurrence exactly as the specification states it, for
season length 24 and alpha = 0.3, beta = 0.1, gamma = 0.1: state k holds the
level and trend after processing indices 24 .. 24 + k - 1, together with the
seasonal component as a function of the index class mod 24.  State 0 is the
initialisation (level = mean of the first 24 values, trend = difference of
the two block means divided by 24, seasonal j = x_j - level); state k + 1
applies the level, trend and seasonal update equations of the specification
to the value at index 24 + k. -/
def hwSpecState (data : List ℚ) : ℕ → ℚ × ℚ × (ℕ → ℚ)
  | 0 =>
    (npMean (data.take 24),
     (npMean ((data.drop 24).take 24) - npMean (data.take 24)) / (24 : ℚ),
     fun j => data.getD j 0 - npMean (data.take 24))
  | k + 1 =>
    let st := hwSpecState data k
    let x := data.getD (24 + k) 0
    let s := st.2.2 ((24 + k) % 24)
    let level2 := (3 / 10) * (x - s) + (1 - 3 / 10) * (st.1 + st.2.1)
    let trend2 := (1 / 10) * (level2 - st.1) + (1 - 1 / 10) * st.2.1
    (level2, trend2,
      fun j => if j = (24 + k) % 24 then (1 / 10) * (x - level2) + (1 - 1 / 10) * s
        else st.2.2 j)

/-- Population standard deviation as the specification words it: the square
root of the sum of squared deviations from the mean divided by the number of
values.  To be compared with prediction_std, the embedding of np.std. -/
noncomputable def popStdSpec (l : List ℚ) : ℝ :=
  Real.sqrt (((l.map (fun x => (x - l.sum / l.length) ^ 2)).sum / l.length : ℚ) : ℝ)

/-- Concrete series: 24 points at 100 followed by 24 points at 0 (a step
down); all values nonnegative, length 48. -/
def hwSeries48 : List ℚ :=
  [100, 100, 100, 100, 100, 100, 100, 100, 100, 100, 100, 100,
   100, 100, 100, 100, 100, 100, 100, 100, 100, 100, 100, 100,
   0, 0, 0, 0, 0, 0, 0, 0, 0, 0, 0, 0, 0, 0, 0, 0, 0, 0, 0, 0, 0, 0, 0, 0]

/-- A row with fixed feature values (hour 3, Tuesday, day 40, February,
20 degrees, 50 percent humidity) and a given consumption. -/
def spikeRow (c : ℚ) : Row := ⟨c, 3, 2, 40, 2, 20, 50⟩

/-- Ten rows with identical features: nine hours of zero consumption
followed by a spike of 100. -/
def spikeDf : List Row :=
  [spikeRow 0, spikeRow 0, spikeRow 0, spikeRow 0, spikeRow 0,
   spikeRow 0, spikeRow 0, spikeRow 0, spikeRow 0, spikeRow 100]

/-- Ten identical rows with consumption 5. -/
def constantDf : List Row :=
  [spikeRow 5, spikeRow 5, spikeRow 5, spikeRow 5, spikeRow 5,
   spikeRow 5, spikeRow 5, spikeRow 5, spikeRow 5, spikeRow 5]

/-- Nine rows: one short of the combiner minimum. -/
def shortDf : List Row :=
  [spikeRow 1, spikeRow 2, spikeRow 3, spikeRow 4, spikeRow 5,
   spikeRow 6, spikeRow 7, spikeRow 8, spikeRow 9]

/-- Seventy-two identical rows with consumption 5 (three full periods). -/
def constant72 : List Row := List.replicate 72 (spikeRow 5)

/-- The consumption values 1 through 24 of the moving-average scenario. -/
def series24 : List ℚ :=
  [1, 2, 3, 4, 5, 6, 7, 8, 9, 10, 11, 12, 13, 14, 15, 16, 17, 18, 19, 20, 21, 22, 23, 24]

/-!
## General helper lemmas
-/

lemma sum_const (l : List ℚ) (c : ℚ) (h : ∀ x ∈ l, x = c) : l.sum = l.length * c := by
  induction l with
  | nil => simp
  | cons a t ih =>
    have ha : a = c := h a (by simp)
    have ht : ∀ x ∈ t, x = c := fun x hx => h x (by simp [hx])
    simp only [List.sum_cons, List.length_cons, ih ht, ha]
    push_cast
    ring

lemma npMean_const (l : List ℚ) (c : ℚ) (hne : l ≠ []) (h : ∀ x ∈ l, x = c) :
    npMean l = c := by
  have hlen : (l.length : ℚ) ≠ 0 := by
    exact_mod_cast fun h0 => hne (List.length_eq_zero.mp h0)
  rw [npMean, sum_const l c h, mul_comm, mul_div_assoc, div_self hlen, mul_one]

lemma npMean_nonneg (l : List ℚ) (h : ∀ x ∈ l, 0 ≤ x) : 0 ≤ npMean l :=
  div_nonneg (List.sum_nonneg h) (Nat.cast_nonneg _)

lemma getD_const (l : List ℚ) (c : ℚ) (j : ℕ) (hj : j < l.length) (h : ∀ x ∈ l, x = c) :
    l.getD j 0 = c := by
  induction l generalizing j with
  | nil => simp at hj
  | cons a t ih =>
    cases j with
    | zero => simpa using h a (by simp)
    | succ j =>
      simp only [List.getD_cons_succ]
      exact ih j (by simpa using hj) (fun x hx => h x (by simp [hx]))

lemma getD_zero_of_all (l : List ℚ) (j : ℕ) (h : ∀ x ∈ l, x = 0) : l.getD j 0 = 0 := by
  induction l generalizing j with
  | nil => simp
  | cons a t ih =>
    cases j with
    | zero => simpa using h a (by simp)
    | succ j =>
      simp only [List.getD_cons_succ]
      exact ih j (fun x hx => h x (by simp [hx]))

lemma getD_set_self (l : List ℚ) (i : ℕ) (a : ℚ) (h : i < l.length) :
    (l.set i a).getD i 0 = a := by
  induction l generalizing i with
  | nil => simp at h
  | cons b t ih =>
    cases i with
    | zero => simp
    | succ i => simpa using ih i (by simpa using h)

lemma getD_set_ne (l : List ℚ) (i j : ℕ) (a : ℚ) (h : i ≠ j) :
    (l.set i a).getD j 0 = l.getD j 0 := by
  induction l generalizing i j with
  | nil => simp
  | cons b t ih =>
    cases i with
    | zero =>
      cases j with
      | zero => exact absurd rfl h
      | succ j => simp
    | succ i =>
      cases j with
      | zero => simp
      | succ j => simpa using ih i j (fun hij => h (by rw [hij]))

lemma mem_set_of_mem (l : List ℚ) (i : ℕ) (a x : ℚ) (hx : x ∈ l.set i a) :
    x ∈ l ∨ x = a := by
  induction l generalizing i with
  | nil => simp at hx
  | cons b t ih =>
    cases i with
    | zero =>
      rcases List.mem_cons.mp hx with h | h
      · exact Or.inr h
      · exact Or.inl (List.mem_cons_of_mem b h)
    | succ i =>
      rcases List.mem_cons.mp hx with h | h
      · exact Or.inl (by simp [h])
      · rcases ih i h with h2 | h2
        · exact Or.inl (List.mem_cons_of_mem b h2)
        · exact Or.inr h2

lemma dot_zero_right (a b : List ℚ) (h : ∀ x ∈ b, x = 0) : dot a b = 0 := by
  induction a generalizing b with
  | nil => simp [dot]
  | cons x xs ih =>
    cases b with
    | nil => simp [dot]
    | cons y ys =>
      have hy : y = 0 := h y (by simp)
      have hys : ∀ v ∈ ys, v = 0 := fun v hv => h v (by simp [hv])
      have := ih ys hys
      simp only [dot, List.zipWith_cons_cons, List.sum_cons] at this ⊢
      simp [hy, this]

lemma gaussAux_zero (m : ℕ) (rows : List (List ℚ × ℚ)) (h : ∀ r ∈ rows, r.2 = 0) :
    gaussAux m rows = List.replicate m 0 := by
  induction m generalizing rows with
  | zero => simp [gaussAux]
  | succ m ih =>
    rw [gaussAux]
    cases hf : rows.find? (fun r => r.1.headD 0 != 0) with
    | none =>
      rw [ih (rows.map (fun r => (r.1.tail, r.2)))]
      · rw [List.replicate_succ]
      · intro r hr
        rcases List.mem_map.mp hr with ⟨r0, hr0, hr0e⟩
        rw [← hr0e]
        exact h r0 hr0
    | some piv =>
      dsimp only
      have hpiv : piv ∈ rows := List.mem_of_find?_eq_some hf
      have hp2 : piv.2 = 0 := h piv hpiv
      have hred : ∀ r ∈ (rows.erase piv).map (fun r =>
          (r.1.tail.zipWith (fun a b => a - (r.1.headD 0 / piv.1.headD 0) * b) piv.1.tail,
            r.2 - (r.1.headD 0 / piv.1.headD 0) * piv.2)), r.2 = 0 := by
        intro r hr
        rcases List.mem_map.mp hr with ⟨r0, hr0, hr0e⟩
        have : r0.2 = 0 := h r0 (List.mem_of_mem_erase hr0)
        rw [← hr0e]
        simp [this, hp2]
      rw [ih _ hred]
      have hdot : dot piv.1.tail (List.replicate m 0) = 0 :=
        dot_zero_right _ _ (fun x hx => (List.eq_of_mem_replicate hx))
      rw [hp2, hdot, List.replicate_succ]
      norm_num

lemma diffList_cons_cons (x y : ℚ) (l : List ℚ) :
    diffList (x :: y :: l) = (y - x) :: diffList (y :: l) := rfl

lemma length_diffList (l : List ℚ) : (diffList l).length = l.length - 1 := by
  simp only [diffList, List.length_zipWith, List.length_tail]
  omega

lemma diffList_getD (l : List ℚ) (i : ℕ) (h : i + 1 < l.length) :
    (diffList l).getD i 0 = l.getD (i + 1) 0 - l.getD i 0 := by
  induction l generalizing i with
  | nil => simp at h
  | cons a t ih =>
    cases t with
    | nil => simp at h
    | cons b t2 =>
      cases i with
      | zero => simp [diffList_cons_cons]
      | succ i =>
        rw [diffList_cons_cons]
        simp only [List.getD_cons_succ]
        exact ih i (by simpa using h)

lemma mem_of_mem_everyNth (step : ℕ) : ∀ (l : List ℚ), ∀ x, x ∈ everyNth step l → x ∈ l
  | [] => by simp [everyNth]
  | a :: l => by
    intro x hx
    rw [everyNth] at hx
    rcases List.mem_cons.mp hx with h | h
    · simp [h]
    · exact List.mem_cons_of_mem a
        (List.drop_subset (step - 1) l (mem_of_mem_everyNth step (l.drop (step - 1)) x h))
termination_by l => l.length
decreasing_by
  simp only [List.length_drop, List.length_cons]
  omega

lemma smoothing_foldl_nonneg (alpha : ℚ) (h0 : 0 ≤ alpha) (h1 : alpha ≤ 1) :
    ∀ (l : List ℚ) (acc : ℚ), 0 ≤ acc → (∀ x ∈ l, 0 ≤ x) →
    0 ≤ l.foldl (fun result value => alpha * value + (1 - alpha) * result) acc := by
  intro l
  induction l with
  | nil => intro acc hacc _; simpa using hacc
  | cons v t ih =>
    intro acc hacc hmem
    simp only [List.foldl_cons]
    refine ih _ ?_ (fun x hx => hmem x (by simp [hx]))
    have hv : 0 ≤ v := hmem v (by simp)
    have := mul_nonneg h0 hv
    nlinarith

lemma smoothing_foldl_const (alpha c : ℚ) :
    ∀ (l : List ℚ), (∀ x ∈ l, x = c) →
    l.foldl (fun result value => alpha * value + (1 - alpha) * result) c = c := by
  intro l
  induction l with
  | nil => simp
  | cons v t ih =>
    intro hmem
    have hv : v = c := hmem v (by simp)
    simp only [List.foldl_cons, hv]
    have harith : alpha * c + (1 - alpha) * c = c := by ring
    rw [harith]
    exact ih (fun x hx => hmem x (by simp [hx]))

lemma exponential_smoothing_nonneg (data : List ℚ) (alpha : ℚ)
    (h0 : 0 ≤ alpha) (h1 : alpha ≤ 1) (h : ∀ x ∈ data, 0 ≤ x) :
    0 ≤ exponential_smoothing data alpha := by
  cases data with
  | nil => simp [exponential_smoothing]
  | cons x rest =>
    rw [exponential_smoothing]
    exact smoothing_foldl_nonneg alpha h0 h1 rest x (h x (by simp))
      (fun v hv => h v (by simp [hv]))

lemma exponential_smoothing_const (data : List ℚ) (alpha c : ℚ)
    (h : ∀ x ∈ data, x = c) : exponential_smoothing data alpha
      = if data = [] then 0 else c := by
  cases data with
  | nil => simp [exponential_smoothing]
  | cons x rest =>
    rw [exponential_smoothing, if_neg (by simp)]
    have hx : x = c := h x (by simp)
    rw [hx]
    exact smoothing_foldl_const alpha c rest (fun v hv => h v (by simp [hv]))

lemma hwGo_step (i : ℕ) (x : ℚ) (rest : List ℚ) (L T : ℚ) (S : List ℚ) :
    hwGo (3 / 10) (1 / 10) (1 / 10) 24 i (x :: rest) L T S =
    hwGo (3 / 10) (1 / 10) (1 / 10) 24 (i + 1) rest
      ((3 / 10) * (x - S.getD (i % 24) 0) + (1 - 3 / 10) * (L + T))
      ((1 / 10) * (((3 / 10) * (x - S.getD (i % 24) 0) + (1 - 3 / 10) * (L + T)) - L)
        + (1 - 1 / 10) * T)
      (S.set (i % 24)
        ((1 / 10) * (x - ((3 / 10) * (x - S.getD (i % 24) 0) + (1 - 3 / 10) * (L + T)))
          + (1 - 1 / 10) * S.getD (i % 24) 0)) := rfl

lemma hwGo_nil (alpha beta gamma : ℚ) (sl i : ℕ) (L T : ℚ) (S : List ℚ) :
    hwGo alpha beta gamma sl i [] L T S = (L, T, S) := rfl

lemma hwGo_const (c : ℚ) : ∀ (rest : List ℚ) (i : ℕ) (S : List ℚ),
    (∀ x ∈ rest, x = c) → (∀ s ∈ S, s = 0) →
    (hwGo (3 / 10) (1 / 10) (1 / 10) 24 i rest c 0 S).1 = c
    ∧ (hwGo (3 / 10) (1 / 10) (1 / 10) 24 i rest c 0 S).2.1 = 0
    ∧ ∀ s ∈ (hwGo (3 / 10) (1 / 10) (1 / 10) 24 i rest c 0 S).2.2, s = 0 := by
  intro rest
  induction rest with
  | nil => intro i S _ hS; exact ⟨rfl, rfl, hS⟩
  | cons x t ih =>
    intro i S hmem hS
    have hx : x = c := hmem x (by simp)
    have hgd : S.getD (i % 24) 0 = 0 := getD_zero_of_all S (i % 24) hS
    have hL2 : (3 / 10 : ℚ) * (x - S.getD (i % 24) 0) + (1 - 3 / 10) * (c + 0) = c := by
      rw [hx, hgd]; ring
    have hT2 : (1 / 10 : ℚ) * (c - c) + (1 - 1 / 10) * 0 = 0 := by ring
    have hSnew : (1 / 10 : ℚ) * (x - c) + (1 - 1 / 10) * S.getD (i % 24) 0 = 0 := by
      rw [hx, hgd]; ring
    rw [hwGo_step, hL2, hT2, hSnew]
    refine ih (i + 1) _ (fun v hv => hmem v (by simp [hv])) ?_
    intro s hs
    rcases mem_set_of_mem S (i % 24) 0 s hs with h | h
    · exact hS s h
    · exact h

lemma getD_map_sub_take (data : List ℚ) (c : ℚ) :
    ∀ (n j : ℕ), j < n → n ≤ data.length →
    ((data.take n).map (fun v => v - c)).getD j 0 = data.getD j 0 - c := by
  induction data with
  | nil => intro n j hj hn; simp at hn; omega
  | cons a t ih =>
    intro n j hj hn
    cases n with
    | zero => omega
    | succ n =>
      cases j with
      | zero => simp
      | succ j =>
        simp only [List.take_succ_cons, List.map_cons, List.getD_cons_succ]
        exact ih n j (by omega) (by simpa using hn)

lemma hwGo_eq_spec (data : List ℚ) :
    ∀ (rest : List ℚ) (k : ℕ) (S : List ℚ),
    rest = data.drop (24 + k) →
    S.length = 24 →
    (∀ j, j < 24 → S.getD j 0 = (hwSpecState data k).2.2 j) →
    (hwGo (3 / 10) (1 / 10) (1 / 10) 24 (24 + k) rest (hwSpecState data k).1
        (hwSpecState data k).2.1 S).1 = (hwSpecState data (k + rest.length)).1
    ∧ (hwGo (3 / 10) (1 / 10) (1 / 10) 24 (24 + k) rest (hwSpecState data k).1
        (hwSpecState data k).2.1 S).2.1 = (hwSpecState data (k + rest.length)).2.1
    ∧ ∀ j, j < 24 →
      (hwGo (3 / 10) (1 / 10) (1 / 10) 24 (24 + k) rest (hwSpecState data k).1
        (hwSpecState data k).2.1 S).2.2.getD j 0 = (hwSpecState data (k + rest.length)).2.2 j := by
  intro rest
  induction rest with
  | nil =>
    intro k S _ _ hcorr
    rw [hwGo_nil]
    refine ⟨by simp, by simp, ?_⟩
    simpa using hcorr
  | cons x t ih =>
    intro k S hrest hlen hcorr
    have hidx : (24 + k) % 24 < 24 := Nat.mod_lt _ (by norm_num)
    have hx : x = data.getD (24 + k) 0 := by
      have h1 : (data.drop (24 + k)).getD 0 0 = data.getD (24 + k) 0 := by
        rw [List.getD_eq_getElem?_getD, List.getD_eq_getElem?_getD, List.getElem?_drop,
          Nat.add_zero]
      rw [← h1, ← hrest]
      simp
    have ht : t = data.drop (24 + (k + 1)) := by
      have h1 : (data.drop (24 + k)).tail = data.drop (24 + k + 1) := by
        rw [List.tail_drop]
      rw [← Nat.add_assoc, ← h1, ← hrest]
      simp
    rw [hwGo_step, hx, hcorr _ hidx]
    have hL : (3 / 10) * (data.getD (24 + k) 0 - (hwSpecState data k).2.2 ((24 + k) % 24))
        + (1 - 3 / 10) * ((hwSpecState data k).1 + (hwSpecState data k).2.1)
        = (hwSpecState data (k + 1)).1 := by
      simp only [hwSpecState]
    rw [hL]
    have hT : (1 / 10) * ((hwSpecState data (k + 1)).1 - (hwSpecState data k).1)
        + (1 - 1 / 10) * (hwSpecState data k).2.1 = (hwSpecState data (k + 1)).2.1 := by
      simp only [hwSpecState]
    rw [hT]
    have hlen2 : (S.set ((24 + k) % 24)
        ((1 / 10) * (data.getD (24 + k) 0 - (hwSpecState data (k + 1)).1)
          + (1 - 1 / 10) * (hwSpecState data k).2.2 ((24 + k) % 24))).length = 24 := by
      rw [List.length_set, hlen]
    have hcorr2 : ∀ j, j < 24 → (S.set ((24 + k) % 24)
        ((1 / 10) * (data.getD (24 + k) 0 - (hwSpecState data (k + 1)).1)
          + (1 - 1 / 10) * (hwSpecState data k).2.2 ((24 + k) % 24))).getD j 0
        = (hwSpecState data (k + 1)).2.2 j := by
      intro j hj
      by_cases hjm : j = (24 + k) % 24
      · rw [hjm, getD_set_self _ _ _ (by rw [hlen]; exact hidx)]
        simp [hwSpecState]
      · have hjm2 : ¬ j = k % 24 := by simpa using hjm
        rw [getD_set_ne _ _ _ _ (fun he => hjm he.symm), hcorr j hj]
        simp [hwSpecState, hjm2]
    have hres := ih (k + 1) _ ht hlen2 hcorr2
    have hklen : k + 1 + t.length = k + (x :: t).length := by
      simp only [List.length_cons]
      omega
    rw [hklen] at hres
    exact hres

/-!
## Claim theorems
-/

/-- C1: for every input series with fewer than 10 points the ensemble
forecast fails with InsufficientData, and for every series with at least 10
points it returns an EnsembleResult. -/
theorem forecast_ensemble_length_guard :
    (∀ data : List Row, data.length < 10 →
      forecast_ensemble data = Except.error ForecastError.insufficientData)
    ∧ (∀ data : List Row, 10 ≤ data.length →
      ∃ r : EnsembleResult, forecast_ensemble data = Except.ok r) := by
  constructor
  · intro data h
    rw [forecast_ensemble, if_pos h]
  · intro data h
    exact ⟨_, by rw [forecast_ensemble, if_neg (by omega)]⟩

/-- Witness for C1: the nine-row series is rejected with InsufficientData
and the ten-row series yields a result. -/
theorem forecast_ensemble_length_guard_witness :
    shortDf.length < 10
    ∧ forecast_ensemble shortDf = Except.error ForecastError.insufficientData
    ∧ 10 ≤ constantDf.length
    ∧ ∃ r : EnsembleResult, forecast_ensemble constantDf = Except.ok r :=
  ⟨by norm_num [shortDf],
   forecast_ensemble_length_guard.1 shortDf (by norm_num [shortDf]),
   by norm_num [constantDf],
   forecast_ensemble_length_guard.2 constantDf (by norm_num [constantDf])⟩

/-- C3: on every series shorter than 48 points (two season lengths),
holt_winters with the default parameters coincides with exponential
smoothing at alpha = 0.3. -/
theorem holt_winters_short_delegates (data : List ℚ) (h : data.length < 48) :
    holt_winters data 24 (3 / 10) (1 / 10) (1 / 10) = exponential_smoothing data (3 / 10) := by
  simp only [holt_winters]
  rw [if_pos (by omega : data.length < 24 * 2)]

/-- Witness for C3 at the series [1, 2, 3]. -/
theorem holt_winters_short_delegates_witness :
    ([1, 2, 3] : List ℚ).length < 48
    ∧ holt_winters [1, 2, 3] 24 (3 / 10) (1 / 10) (1 / 10)
      = exponential_smoothing [1, 2, 3] (3 / 10) :=
  ⟨by norm_num, holt_winters_short_delegates [1, 2, 3] (by norm_num)⟩

/-- C4: for every series of at least 48 points, holt_winters computes
exactly the level, trend and seasonal recurrence of the specification
(captured by hwSpecState: level = mean of the first 24 values, trend =
difference of the two block means over 24, seasonal j = x_j - level, then
the three update equations for indices 24 to the end) and returns
level + trend + seasonal 0 - the seasonal component at index 0, not at the
index matching the forecast horizon. -/
theorem holt_winters_recurrence (data : List ℚ) (h : 48 ≤ data.length) :
    holt_winters data 24 (3 / 10) (1 / 10) (1 / 10)
      = (hwSpecState data (data.length - 24)).1
        + (hwSpecState data (data.length - 24)).2.1
        + (hwSpecState data (data.length - 24)).2.2 0 := by
  simp only [holt_winters]
  rw [if_neg (by omega : ¬ data.length < 24 * 2)]
  have h0T : (npMean ((data.drop 24).take 24) - npMean (data.take 24)) / ((24 : ℕ) : ℚ)
      = (hwSpecState data 0).2.1 := by
    norm_num [hwSpecState]
  have h0L : npMean (data.take 24) = (hwSpecState data 0).1 := by
    simp [hwSpecState]
  rw [h0T, h0L]
  have hlen24 : ((data.take 24).map (fun v => v - (hwSpecState data 0).1)).length = 24 := by
    simp [List.length_take]
    omega
  have h0S : ∀ j, j < 24 →
      ((data.take 24).map (fun v => v - (hwSpecState data 0).1)).getD j 0
        = (hwSpecState data 0).2.2 j := by
    intro j hj
    rw [getD_map_sub_take data _ 24 j hj (by omega), ← h0L]
    simp [hwSpecState]
  have hres := hwGo_eq_spec data (data.drop (24 + 0)) 0
    ((data.take 24).map (fun v => v - (hwSpecState data 0).1)) rfl hlen24 h0S
  simp only [Nat.add_zero, Nat.zero_add, List.length_drop] at hres
  rw [hres.1, hres.2.1, hres.2.2 0 (by norm_num)]

/-- Witness for C4 at the 48-point step series. -/
theorem holt_winters_recurrence_witness :
    48 ≤ hwSeries48.length
    ∧ holt_winters hwSeries48 24 (3 / 10) (1 / 10) (1 / 10)
      = (hwSpecState hwSeries48 (hwSeries48.length - 24)).1
        + (hwSpecState hwSeries48 (hwSeries48.length - 24)).2.1
        + (hwSpecState hwSeries48 (hwSeries48.length - 24)).2.2 0 :=
  ⟨by norm_num [hwSeries48], holt_winters_recurrence hwSeries48 (by norm_num [hwSeries48])⟩

/-- C5: moving_average with window 24 returns the mean of the whole series
when it has fewer than 24 points and the mean of the last 24 values
otherwise; on the series 1..24 it returns 12.5. -/
theorem moving_average_window (data : List ℚ) :
    (data ≠ [] → data.length < 24 → moving_average data 24 = npMean data)
    ∧ (24 ≤ data.length →
        moving_average data 24 = npMean (data.drop (data.length - 24))
        ∧ (data.drop (data.length - 24)).length = 24)
    ∧ moving_average series24 24 = 25 / 2 := by
  refine ⟨?_, ?_, ?_⟩
  · intro _ h
    rw [moving_average, if_pos h]
  · intro h
    refine ⟨by rw [moving_average, if_neg (by omega)], ?_⟩
    simp only [List.length_drop]
    omega
  · norm_num [moving_average, series24, npMean]

/-- Witness for C5: the short branch at [5, 7] and the long branch at the
series 1..24. -/
theorem moving_average_window_witness :
    (([5, 7] : List ℚ) ≠ [] ∧ ([5, 7] : List ℚ).length < 24
      ∧ moving_average [5, 7] 24 = npMean [5, 7])
    ∧ (24 ≤ series24.length
      ∧ moving_average series24 24 = npMean (series24.drop (series24.length - 24))) :=
  ⟨⟨List.cons_ne_nil _ _, by norm_num,
    (moving_average_window [5, 7]).1 (List.cons_ne_nil _ _) (by norm_num)⟩,
   ⟨by norm_num [series24], ((moving_average_window series24).2.1 (by norm_num [series24])).1⟩⟩

/-- C9: arima_simple with p = d = q = 1 returns the mean of the series when
it has fewer than max(p, q) + d = 2 points; otherwise it first-differences
once (the differenced series then has at least max(p, q) = 1 point, so the
last-raw-value fallback cannot fire) and returns the last raw value plus the
geometric AR term 0.5 times the last differenced value, floor-clamped at
zero. -/
theorem arima_simple_111 (data : List ℚ) :
    (data.length < 2 → arima_simple data 1 1 1 = npMean data)
    ∧ (2 ≤ data.length → arima_simple data 1 1 1
        = max 0 (data.getD (data.length - 1) 0
          + (1 / 2) * (data.getD (data.length - 1) 0 - data.getD (data.length - 2) 0))) := by
  constructor
  · intro h
    rw [arima_simple, if_pos (by simpa using h)]
  · intro h
    rw [arima_simple, if_neg (by simp; omega)]
    simp only [Function.iterate_one]
    rw [if_neg (by rw [length_diffList]; simp; omega)]
    have hmin : min (1 + 1) ((diffList data).length + 1) - 1 = 1 := by
      rw [length_diffList]; omega
    rw [hmin]
    have hrange : List.range' 1 1 = [1] := rfl
    rw [hrange]
    simp only [List.map_cons, List.map_nil, List.sum_cons, List.sum_nil, pow_one]
    have hdl : (diffList data).length - 1 = data.length - 2 := by
      rw [length_diffList]; omega
    rw [hdl]
    rw [diffList_getD data (data.length - 2) (by omega)]
    have h21 : data.length - 2 + 1 = data.length - 1 := by omega
    rw [h21]
    ring_nf

/-- Witness for C9: the mean fallback at [4] and the AR formula at [3, 7]. -/
theorem arima_simple_111_witness :
    (([4] : List ℚ).length < 2 ∧ arima_simple [4] 1 1 1 = npMean [4])
    ∧ (2 ≤ ([3, 7] : List ℚ).length ∧ arima_simple [3, 7] 1 1 1
        = max 0 (([3, 7] : List ℚ).getD 1 0
          + (1 / 2) * (([3, 7] : List ℚ).getD 1 0 - ([3, 7] : List ℚ).getD 0 0))) :=
  ⟨⟨by norm_num, (arima_simple_111 [4]).1 (by norm_num)⟩,
   ⟨by norm_num, (arima_simple_111 [3, 7]).2 (by norm_num)⟩⟩

lemma getD_mem (l : List ℚ) (j : ℕ) (h : j < l.length) : l.getD j 0 ∈ l := by
  induction l generalizing j with
  | nil => simp at h
  | cons a t ih =>
    cases j with
    | zero => simp
    | succ j =>
      simp only [List.getD_cons_succ]
      exact List.mem_cons_of_mem _ (ih _ (by simpa using h))

/-- C2 counterexample: every value of the 48-point step series is
nonnegative, yet holt_winters (default parameters, as the ensemble calls it)
returns a strictly negative prediction: line 49 of the source returns
level + trend + seasonal[0] without any floor clamp, so the claim that every
algorithm in the library is floor-clamped at zero is false.  The proof
evaluates the 24 update iterations one at a time. -/
theorem holt_winters_negative_on_nonneg_input :
    (∀ x ∈ hwSeries48, 0 ≤ x)
    ∧ holt_winters hwSeries48 24 (3 / 10) (1 / 10) (1 / 10) < 0 := by
  constructor
  · norm_num [hwSeries48, List.forall_mem_cons]
  have h5 : ¬ (hwSeries48.length < 24 * 2) := by norm_num [hwSeries48]
  have h1 : npMean (hwSeries48.take 24) = 100 := by norm_num [hwSeries48, npMean]
  have h2 : (npMean ((hwSeries48.drop 24).take 24) - npMean (hwSeries48.take 24)) / ((24 : ℕ) : ℚ)
      = -25 / 6 := by norm_num [hwSeries48, npMean]
  have h3 : (hwSeries48.take 24).map (fun v => v - npMean (hwSeries48.take 24))
      = [0, 0, 0, 0, 0, 0, 0, 0, 0, 0, 0, 0, 0, 0, 0, 0, 0, 0, 0, 0, 0, 0, 0, 0] := by
    norm_num [hwSeries48, npMean]
  have h4 : hwSeries48.drop 24
      = [0, 0, 0, 0, 0, 0, 0, 0, 0, 0, 0, 0, 0, 0, 0, 0, 0, 0, 0, 0, 0, 0, 0, 0] := by
    norm_num [hwSeries48]
  have hstep0 :
      hwGo (3 / 10) (1 / 10) (1 / 10) 24 24
      [0, 0, 0, 0, 0, 0, 0, 0, 0, 0, 0, 0, 0, 0, 0, 0, 0, 0, 0, 0, 0, 0, 0, 0]
      100 (-25 / 6)
      [0, 0, 0, 0, 0, 0, 0, 0, 0, 0, 0, 0, 0, 0, 0, 0, 0, 0, 0, 0, 0, 0, 0, 0] =
      hwGo (3 / 10) (1 / 10) (1 / 10) 24 25
      [0, 0, 0, 0, 0, 0, 0, 0, 0, 0, 0, 0, 0, 0, 0, 0, 0, 0, 0, 0, 0, 0, 0]
      (805 / 12) (-169 / 24)
      [(-161 / 24), 0, 0, 0, 0, 0, 0, 0, 0, 0, 0, 0, 0, 0, 0, 0, 0, 0, 0, 0, 0, 0, 0, 0] := by
    rw [hwGo_step]; norm_num
  have hstep1 :
      hwGo (3 / 10) (1 / 10) (1 / 10) 24 25
      [0, 0, 0, 0, 0, 0, 0, 0, 0, 0, 0, 0, 0, 0, 0, 0, 0, 0, 0, 0, 0, 0, 0]
      (805 / 12) (-169 / 24)
      [(-161 / 24), 0, 0, 0, 0, 0, 0, 0, 0, 0, 0, 0, 0, 0, 0, 0, 0, 0, 0, 0, 0, 0, 0, 0] =
      hwGo (3 / 10) (1 / 10) (1 / 10) 24 26
      [0, 0, 0, 0, 0, 0, 0, 0, 0, 0, 0, 0, 0, 0, 0, 0, 0, 0, 0, 0, 0, 0]
      (10087 / 240) (-21223 / 2400)
      [(-161 / 24), (-10087 / 2400), 0, 0, 0, 0, 0, 0, 0, 0, 0, 0, 0, 0, 0, 0, 0, 0, 0, 0, 0, 0, 0, 0] := by
    rw [hwGo_step]; norm_num
  have hstep2 :
      hwGo (3 / 10) (1 / 10) (1 / 10) 24 26
      [0, 0, 0, 0, 0, 0, 0, 0, 0, 0, 0, 0, 0, 0, 0, 0, 0, 0, 0, 0, 0, 0]
      (10087 / 240) (-21223 / 2400)
      [(-161 / 24), (-10087 / 2400), 0, 0, 0, 0, 0, 0, 0, 0, 0, 0, 0, 0, 0, 0, 0, 0, 0, 0, 0, 0, 0, 0] =
      hwGo (3 / 10) (1 / 10) (1 / 10) 24 27
      [0, 0, 0, 0, 0, 0, 0, 0, 0, 0, 0, 0, 0, 0, 0, 0, 0, 0, 0, 0, 0]
      (185843 / 8000) (-2361241 / 240000)
      [(-161 / 24), (-10087 / 2400), (-185843 / 80000), 0, 0, 0, 0, 0, 0, 0, 0, 0, 0, 0, 0, 0, 0, 0, 0, 0, 0, 0, 0, 0] := by
    rw [hwGo_step]; norm_num
  have hstep3 :
      hwGo (3 / 10) (1 / 10) (1 / 10) 24 27
      [0, 0, 0, 0, 0, 0, 0, 0, 0, 0, 0, 0, 0, 0, 0, 0, 0, 0, 0, 0, 0]
      (185843 / 8000) (-2361241 / 240000)
      [(-161 / 24), (-10087 / 2400), (-185843 / 80000), 0, 0, 0, 0, 0, 0, 0, 0, 0, 0, 0, 0, 0, 0, 0, 0, 0, 0, 0, 0, 0] =
      hwGo (3 / 10) (1 / 10) (1 / 10) 24 28
      [0, 0, 0, 0, 0, 0, 0, 0, 0, 0, 0, 0, 0, 0, 0, 0, 0, 0, 0, 0]
      (22498343 / 2400000) (-245766247 / 24000000)
      [(-161 / 24), (-10087 / 2400), (-185843 / 80000), (-22498343 / 24000000), 0, 0, 0, 0, 0, 0, 0, 0, 0, 0, 0, 0, 0, 0, 0, 0, 0, 0, 0, 0] := by
    rw [hwGo_step]; norm_num
  have hstep4 :
      hwGo (3 / 10) (1 / 10) (1 / 10) 24 28
      [0, 0, 0, 0, 0, 0, 0, 0, 0, 0, 0, 0, 0, 0, 0, 0, 0, 0, 0, 0]
      (22498343 / 2400000) (-245766247 / 24000000)
      [(-161 / 24), (-10087 / 2400), (-185843 / 80000), (-22498343 / 24000000), 0, 0, 0, 0, 0, 0, 0, 0, 0, 0, 0, 0, 0, 0, 0, 0, 0, 0, 0, 0] =
      hwGo (3 / 10) (1 / 10) (1 / 10) 24 29
      [0, 0, 0, 0, 0, 0, 0, 0, 0, 0, 0, 0, 0, 0, 0, 0, 0, 0, 0]
      (-145479719 / 240000000) (-24514276249 / 2400000000)
      [(-161 / 24), (-10087 / 2400), (-185843 / 80000), (-22498343 / 24000000), (145479719 / 2400000000), 0, 0, 0, 0, 0, 0, 0, 0, 0, 0, 0, 0, 0, 0, 0, 0, 0, 0, 0] := by
    rw [hwGo_step]; norm_num
  have hstep5 :
      hwGo (3 / 10) (1 / 10) (1 / 10) 24 29
      [0, 0, 0, 0, 0, 0, 0, 0, 0, 0, 0, 0, 0, 0, 0, 0, 0, 0, 0]
      (-145479719 / 240000000) (-24514276249 / 2400000000)
      [(-161 / 24), (-10087 / 2400), (-185843 / 80000), (-22498343 / 24000000), (145479719 / 2400000000), 0, 0, 0, 0, 0, 0, 0, 0, 0, 0, 0, 0, 0, 0, 0, 0, 0, 0, 0] =
      hwGo (3 / 10) (1 / 10) (1 / 10) 24 30
      [0, 0, 0, 0, 0, 0, 0, 0, 0, 0, 0, 0, 0, 0, 0, 0, 0, 0]
      (-60594504691 / 8000000000) (-2373520404583 / 240000000000)
      [(-161 / 24), (-10087 / 2400), (-185843 / 80000), (-22498343 / 24000000), (145479719 / 2400000000), (60594504691 / 80000000000), 0, 0, 0, 0, 0, 0, 0, 0, 0, 0, 0, 0, 0, 0, 0, 0, 0, 0] := by
    rw [hwGo_step]; norm_num
  have hstep6 :
      hwGo (3 / 10) (1 / 10) (1 / 10) 24 30
      [0, 0, 0, 0, 0, 0, 0, 0, 0, 0, 0, 0, 0, 0, 0, 0, 0, 0]
      (-60594504691 / 8000000000) (-2373520404583 / 240000000000)
      [(-161 / 24), (-10087 / 2400), (-185843 / 80000), (-22498343 / 24000000), (145479719 / 2400000000), (60594504691 / 80000000000), 0, 0, 0, 0, 0, 0, 0, 0, 0, 0, 0, 0, 0, 0, 0, 0, 0, 0] =
      hwGo (3 / 10) (1 / 10) (1 / 10) 24 31
      [0, 0, 0, 0, 0, 0, 0, 0, 0, 0, 0, 0, 0, 0, 0, 0, 0]
      (-29339488817191 / 2400000000000) (-224777973822361 / 24000000000000)
      [(-161 / 24), (-10087 / 2400), (-185843 / 80000), (-22498343 / 24000000), (145479719 / 2400000000), (60594504691 / 80000000000), (29339488817191 / 24000000000000), 0, 0, 0, 0, 0, 0, 0, 0, 0, 0, 0, 0, 0, 0, 0, 0, 0] := by
    rw [hwGo_step]; norm_num
  have hstep7 :
      hwGo (3 / 10) (1 / 10) (1 / 10) 24 31
      [0, 0, 0, 0, 0, 0, 0, 0, 0, 0, 0, 0, 0, 0, 0, 0, 0]
      (-29339488817191 / 2400000000000) (-224777973822361 / 24000000000000)
      [(-161 / 24), (-10087 / 2400), (-185843 / 80000), (-22498343 / 24000000), (145479719 / 2400000000), (60594504691 / 80000000000), (29339488817191 / 24000000000000), 0, 0, 0, 0, 0, 0, 0, 0, 0, 0, 0, 0, 0, 0, 0, 0, 0] =
      hwGo (3 / 10) (1 / 10) (1 / 10) 24 32
      [0, 0, 0, 0, 0, 0, 0, 0, 0, 0, 0, 0, 0, 0, 0, 0]
      (-3627210033959897 / 240000000000000) (-20923278796253287 / 2400000000000000)
      [(-161 / 24), (-10087 / 2400), (-185843 / 80000), (-22498343 / 24000000), (145479719 / 2400000000), (60594504691 / 80000000000), (29339488817191 / 24000000000000), (3627210033959897 / 2400000000000000), 0, 0, 0, 0, 0, 0, 0, 0, 0, 0, 0, 0, 0, 0, 0, 0] := by
    rw [hwGo_step]; norm_num
  have hstep8 :
      hwGo (3 / 10) (1 / 10) (1 / 10) 24 32
      [0, 0, 0, 0, 0, 0, 0, 0, 0, 0, 0, 0, 0, 0, 0, 0]
      (-3627210033959897 / 240000000000000) (-20923278796253287 / 2400000000000000)
      [(-161 / 24), (-10087 / 2400), (-185843 / 80000), (-22498343 / 24000000), (145479719 / 2400000000), (60594504691 / 80000000000), (29339488817191 / 24000000000000), (3627210033959897 / 2400000000000000), 0, 0, 0, 0, 0, 0, 0, 0, 0, 0, 0, 0, 0, 0, 0, 0] =
      hwGo (3 / 10) (1 / 10) (1 / 10) 24 33
      [0, 0, 0, 0, 0, 0, 0, 0, 0, 0, 0, 0, 0, 0, 0]
      (-133455884650321933 / 8000000000000000) (-1920741742217771929 / 240000000000000000)
      [(-161 / 24), (-10087 / 2400), (-185843 / 80000), (-22498343 / 24000000), (145479719 / 2400000000), (60594504691 / 80000000000), (29339488817191 / 24000000000000), (3627210033959897 / 2400000000000000), (133455884650321933 / 80000000000000000), 0, 0, 0, 0, 0, 0, 0, 0, 0, 0, 0, 0, 0, 0, 0] := by
    rw [hwGo_step]; norm_num
  have hstep9 :
      hwGo (3 / 10) (1 / 10) (1 / 10) 24 33
      [0, 0, 0, 0, 0, 0, 0, 0, 0, 0, 0, 0, 0, 0, 0]
      (-133455884650321933 / 8000000000000000) (-1920741742217771929 / 240000000000000000)
      [(-161 / 24), (-10087 / 2400), (-185843 / 80000), (-22498343 / 24000000), (145479719 / 2400000000), (60594504691 / 80000000000), (29339488817191 / 24000000000000), (3627210033959897 / 2400000000000000), (133455884650321933 / 80000000000000000), 0, 0, 0, 0, 0, 0, 0, 0, 0, 0, 0, 0, 0, 0, 0] =
      hwGo (3 / 10) (1 / 10) (1 / 10) 24 34
      [0, 0, 0, 0, 0, 0, 0, 0, 0, 0, 0, 0, 0, 0]
      (-41470927972092009433 / 2400000000000000000) (-174300919376594903143 / 24000000000000000000)
      [(-161 / 24), (-10087 / 2400), (-185843 / 80000), (-22498343 / 24000000), (145479719 / 2400000000), (60594504691 / 80000000000), (29339488817191 / 24000000000000), (3627210033959897 / 2400000000000000), (133455884650321933 / 80000000000000000), (41470927972092009433 / 24000000000000000000), 0, 0, 0, 0, 0, 0, 0, 0, 0, 0, 0, 0, 0, 0] := by
    rw [hwGo_step]; norm_num
  have hstep10 :
      hwGo (3 / 10) (1 / 10) (1 / 10) 24 34
      [0, 0, 0, 0, 0, 0, 0, 0, 0, 0, 0, 0, 0, 0]
      (-41470927972092009433 / 2400000000000000000) (-174300919376594903143 / 24000000000000000000)
      [(-161 / 24), (-10087 / 2400), (-185843 / 80000), (-22498343 / 24000000), (145479719 / 2400000000), (60594504691 / 80000000000), (29339488817191 / 24000000000000), (3627210033959897 / 2400000000000000), (133455884650321933 / 80000000000000000), (41470927972092009433 / 24000000000000000000), 0, 0, 0, 0, 0, 0, 0, 0, 0, 0, 0, 0, 0, 0] =
      hwGo (3 / 10) (1 / 10) (1 / 10) 24 35
      [0, 0, 0, 0, 0, 0, 0, 0, 0, 0, 0, 0, 0]
      (-4123071393682604982311 / 240000000000000000000) (-15663061340366945321881 / 2400000000000000000000)
      [(-161 / 24), (-10087 / 2400), (-185843 / 80000), (-22498343 / 24000000), (145479719 / 2400000000), (60594504691 / 80000000000), (29339488817191 / 24000000000000), (3627210033959897 / 2400000000000000), (133455884650321933 / 80000000000000000), (41470927972092009433 / 24000000000000000000), (4123071393682604982311 / 2400000000000000000000), 0, 0, 0, 0, 0, 0, 0, 0, 0, 0, 0, 0, 0] := by
    rw [hwGo_step]; norm_num
  have hstep11 :
      hwGo (3 / 10) (1 / 10) (1 / 10) 24 35
      [0, 0, 0, 0, 0, 0, 0, 0, 0, 0, 0, 0, 0]
      (-4123071393682604982311 / 240000000000000000000) (-15663061340366945321881 / 2400000000000000000000)
      [(-161 / 24), (-10087 / 2400), (-185843 / 80000), (-22498343 / 24000000), (145479719 / 2400000000), (60594504691 / 80000000000), (29339488817191 / 24000000000000), (3627210033959897 / 2400000000000000), (133455884650321933 / 80000000000000000), (41470927972092009433 / 24000000000000000000), (4123071393682604982311 / 2400000000000000000000), 0, 0, 0, 0, 0, 0, 0, 0, 0, 0, 0, 0, 0] =
      hwGo (3 / 10) (1 / 10) (1 / 10) 24 36
      [0, 0, 0, 0, 0, 0, 0, 0, 0, 0, 0, 0]
      (-132752142313450322004979 / 8000000000000000000000) (-1395624808205115546753127 / 240000000000000000000000)
      [(-161 / 24), (-10087 / 2400), (-185843 / 80000), (-22498343 / 24000000), (145479719 / 2400000000), (60594504691 / 80000000000), (29339488817191 / 24000000000000), (3627210033959897 / 2400000000000000), (133455884650321933 / 80000000000000000), (41470927972092009433 / 24000000000000000000), (4123071393682604982311 / 2400000000000000000000), (132752142313450322004979 / 80000000000000000000000), 0, 0, 0, 0, 0, 0, 0, 0, 0, 0, 0, 0] := by
    rw [hwGo_step]; norm_num
  have hstep12 :
      hwGo (3 / 10) (1 / 10) (1 / 10) 24 36
      [0, 0, 0, 0, 0, 0, 0, 0, 0, 0, 0, 0]
      (-132752142313450322004979 / 8000000000000000000000) (-1395624808205115546753127 / 240000000000000000000000)
      [(-161 / 24), (-10087 / 2400), (-185843 / 80000), (-22498343 / 24000000), (145479719 / 2400000000), (60594504691 / 80000000000), (29339488817191 / 24000000000000), (3627210033959897 / 2400000000000000), (133455884650321933 / 80000000000000000), (41470927972092009433 / 24000000000000000000), (4123071393682604982311 / 2400000000000000000000), (132752142313450322004979 / 80000000000000000000000), 0, 0, 0, 0, 0, 0, 0, 0, 0, 0, 0, 0] =
      hwGo (3 / 10) (1 / 10) (1 / 10) 24 37
      [0, 0, 0, 0, 0, 0, 0, 0, 0, 0, 0]
      (-37647323543260376448317479 / 2400000000000000000000000) (-123427913587685679054605209 / 24000000000000000000000000)
      [(-161 / 24), (-10087 / 2400), (-185843 / 80000), (-22498343 / 24000000), (145479719 / 2400000000), (60594504691 / 80000000000), (29339488817191 / 24000000000000), (3627210033959897 / 2400000000000000), (133455884650321933 / 80000000000000000), (41470927972092009433 / 24000000000000000000), (4123071393682604982311 / 2400000000000000000000), (132752142313450322004979 / 80000000000000000000000), (37647323543260376448317479 / 24000000000000000000000000), 0, 0, 0, 0, 0, 0, 0, 0, 0, 0, 0] := by
    rw [hwGo_step]; norm_num
  have hstep13 :
      hwGo (3 / 10) (1 / 10) (1 / 10) 24 37
      [0, 0, 0, 0, 0, 0, 0, 0, 0, 0, 0]
      (-37647323543260376448317479 / 2400000000000000000000000) (-123427913587685679054605209 / 24000000000000000000000000)
      [(-161 / 24), (-10087 / 2400), (-185843 / 80000), (-22498343 / 24000000), (145479719 / 2400000000), (60594504691 / 80000000000), (29339488817191 / 24000000000000), (3627210033959897 / 2400000000000000), (133455884650321933 / 80000000000000000), (41470927972092009433 / 24000000000000000000), (4123071393682604982311 / 2400000000000000000000), (132752142313450322004979 / 80000000000000000000000), (37647323543260376448317479 / 24000000000000000000000000), 0, 0, 0, 0, 0, 0, 0, 0, 0, 0, 0] =
      hwGo (3 / 10) (1 / 10) (1 / 10) 24 38
      [0, 0, 0, 0, 0, 0, 0, 0, 0, 0]
      (-3499308043142026104764459993 / 240000000000000000000000000) (-10843087911707699574847180903 / 2400000000000000000000000000)
      [(-161 / 24), (-10087 / 2400), (-185843 / 80000), (-22498343 / 24000000), (145479719 / 2400000000), (60594504691 / 80000000000), (29339488817191 / 24000000000000), (3627210033959897 / 2400000000000000), (133455884650321933 / 80000000000000000), (41470927972092009433 / 24000000000000000000), (4123071393682604982311 / 2400000000000000000000), (132752142313450322004979 / 80000000000000000000000), (37647323543260376448317479 / 24000000000000000000000000), (3499308043142026104764459993 / 2400000000000000000000000000), 0, 0, 0, 0, 0, 0, 0, 0, 0, 0] := by
    rw [hwGo_step]; norm_num
  have hstep14 :
      hwGo (3 / 10) (1 / 10) (1 / 10) 24 38
      [0, 0, 0, 0, 0, 0, 0, 0, 0, 0]
      (-3499308043142026104764459993 / 240000000000000000000000000) (-10843087911707699574847180903 / 2400000000000000000000000000)
      [(-161 / 24), (-10087 / 2400), (-185843 / 80000), (-22498343 / 24000000), (145479719 / 2400000000), (60594504691 / 80000000000), (29339488817191 / 24000000000000), (3627210033959897 / 2400000000000000), (133455884650321933 / 80000000000000000), (41470927972092009433 / 24000000000000000000), (4123071393682604982311 / 2400000000000000000000), (132752142313450322004979 / 80000000000000000000000), (37647323543260376448317479 / 24000000000000000000000000), (3499308043142026104764459993 / 2400000000000000000000000000), 0, 0, 0, 0, 0, 0, 0, 0, 0, 0] =
      hwGo (3 / 10) (1 / 10) (1 / 10) 24 39
      [0, 0, 0, 0, 0, 0, 0, 0, 0]
      (-106951059467298574785814155277 / 8000000000000000000000000000) (-946800286141386075617242747801 / 240000000000000000000000000000)
      [(-161 / 24), (-10087 / 2400), (-185843 / 80000), (-22498343 / 24000000), (145479719 / 2400000000), (60594504691 / 80000000000), (29339488817191 / 24000000000000), (3627210033959897 / 2400000000000000), (133455884650321933 / 80000000000000000), (41470927972092009433 / 24000000000000000000), (4123071393682604982311 / 2400000000000000000000), (132752142313450322004979 / 80000000000000000000000), (37647323543260376448317479 / 24000000000000000000000000), (3499308043142026104764459993 / 2400000000000000000000000000), (106951059467298574785814155277 / 80000000000000000000000000000), 0, 0, 0, 0, 0, 0, 0, 0, 0] := by
    rw [hwGo_step]; norm_num
  have hstep15 :
      hwGo (3 / 10) (1 / 10) (1 / 10) 24 39
      [0, 0, 0, 0, 0, 0, 0, 0, 0]
      (-106951059467298574785814155277 / 8000000000000000000000000000) (-946800286141386075617242747801 / 240000000000000000000000000000)
      [(-161 / 24), (-10087 / 2400), (-185843 / 80000), (-22498343 / 24000000), (145479719 / 2400000000), (60594504691 / 80000000000), (29339488817191 / 24000000000000), (3627210033959897 / 2400000000000000), (133455884650321933 / 80000000000000000), (41470927972092009433 / 24000000000000000000), (4123071393682604982311 / 2400000000000000000000), (132752142313450322004979 / 80000000000000000000000), (37647323543260376448317479 / 24000000000000000000000000), (3499308043142026104764459993 / 2400000000000000000000000000), (106951059467298574785814155277 / 80000000000000000000000000000), 0, 0, 0, 0, 0, 0, 0, 0, 0] =
      hwGo (3 / 10) (1 / 10) (1 / 10) 24 40
      [0, 0, 0, 0, 0, 0, 0, 0]
      (-29087324491122403234341671842777 / 2400000000000000000000000000000) (-82214032403657577604149272561767 / 24000000000000000000000000000000)
      [(-161 / 24), (-10087 / 2400), (-185843 / 80000), (-22498343 / 24000000), (145479719 / 2400000000), (60594504691 / 80000000000), (29339488817191 / 24000000000000), (3627210033959897 / 2400000000000000), (133455884650321933 / 80000000000000000), (41470927972092009433 / 24000000000000000000), (4123071393682604982311 / 2400000000000000000000), (132752142313450322004979 / 80000000000000000000000), (37647323543260376448317479 / 24000000000000000000000000), (3499308043142026104764459993 / 2400000000000000000000000000), (106951059467298574785814155277 / 80000000000000000000000000000), (29087324491122403234341671842777 / 24000000000000000000000000000000), 0, 0, 0, 0, 0, 0, 0, 0] := by
    rw [hwGo_step]; norm_num
  have hstep16 :
      hwGo (3 / 10) (1 / 10) (1 / 10) 24 40
      [0, 0, 0, 0, 0, 0, 0, 0]
      (-29087324491122403234341671842777 / 2400000000000000000000000000000) (-82214032403657577604149272561767 / 24000000000000000000000000000000)
      [(-161 / 24), (-10087 / 2400), (-185843 / 80000), (-22498343 / 24000000), (145479719 / 2400000000), (60594504691 / 80000000000), (29339488817191 / 24000000000000), (3627210033959897 / 2400000000000000), (133455884650321933 / 80000000000000000), (41470927972092009433 / 24000000000000000000), (4123071393682604982311 / 2400000000000000000000), (132752142313450322004979 / 80000000000000000000000), (37647323543260376448317479 / 24000000000000000000000000), (3499308043142026104764459993 / 2400000000000000000000000000), (106951059467298574785814155277 / 80000000000000000000000000000), (29087324491122403234341671842777 / 24000000000000000000000000000000), 0, 0, 0, 0, 0, 0, 0, 0] =
      hwGo (3 / 10) (1 / 10) (1 / 10) 24 41
      [0, 0, 0, 0, 0, 0, 0]
      (-2611610941204171269632961936926759 / 240000000000000000000000000000000) (-7102141408421112930572229283208089 / 2400000000000000000000000000000000)
      [(-161 / 24), (-10087 / 2400), (-185843 / 80000), (-22498343 / 24000000), (145479719 / 2400000000), (60594504691 / 80000000000), (29339488817191 / 24000000000000), (3627210033959897 / 2400000000000000), (133455884650321933 / 80000000000000000), (41470927972092009433 / 24000000000000000000), (4123071393682604982311 / 2400000000000000000000), (132752142313450322004979 / 80000000000000000000000), (37647323543260376448317479 / 24000000000000000000000000), (3499308043142026104764459993 / 2400000000000000000000000000), (106951059467298574785814155277 / 80000000000000000000000000000), (29087324491122403234341671842777 / 24000000000000000000000000000000), (2611610941204171269632961936926759 / 2400000000000000000000000000000000), 0, 0, 0, 0, 0, 0, 0] := by
    rw [hwGo_step]; norm_num
  have hstep17 :
      hwGo (3 / 10) (1 / 10) (1 / 10) 24 41
      [0, 0, 0, 0, 0, 0, 0]
      (-2611610941204171269632961936926759 / 240000000000000000000000000000000) (-7102141408421112930572229283208089 / 2400000000000000000000000000000000)
      [(-161 / 24), (-10087 / 2400), (-185843 / 80000), (-22498343 / 24000000), (145479719 / 2400000000), (60594504691 / 80000000000), (29339488817191 / 24000000000000), (3627210033959897 / 2400000000000000), (133455884650321933 / 80000000000000000), (41470927972092009433 / 24000000000000000000), (4123071393682604982311 / 2400000000000000000000), (132752142313450322004979 / 80000000000000000000000), (37647323543260376448317479 / 24000000000000000000000000), (3499308043142026104764459993 / 2400000000000000000000000000), (106951059467298574785814155277 / 80000000000000000000000000000), (29087324491122403234341671842777 / 24000000000000000000000000000000), (2611610941204171269632961936926759 / 2400000000000000000000000000000000), 0, 0, 0, 0, 0, 0, 0] =
      hwGo (3 / 10) (1 / 10) (1 / 10) 24 42
      [0, 0, 0, 0, 0, 0]
      (-77509251914413259796104313522443251 / 8000000000000000000000000000000000) (-610559388380722816176517382363381863 / 240000000000000000000000000000000000)
      [(-161 / 24), (-10087 / 2400), (-185843 / 80000), (-22498343 / 24000000), (145479719 / 2400000000), (60594504691 / 80000000000), (29339488817191 / 24000000000000), (3627210033959897 / 2400000000000000), (133455884650321933 / 80000000000000000), (41470927972092009433 / 24000000000000000000), (4123071393682604982311 / 2400000000000000000000), (132752142313450322004979 / 80000000000000000000000), (37647323543260376448317479 / 24000000000000000000000000), (3499308043142026104764459993 / 2400000000000000000000000000), (106951059467298574785814155277 / 80000000000000000000000000000), (29087324491122403234341671842777 / 24000000000000000000000000000000), (2611610941204171269632961936926759 / 2400000000000000000000000000000000), (77509251914413259796104313522443251 / 80000000000000000000000000000000000), 0, 0, 0, 0, 0, 0] := by
    rw [hwGo_step]; norm_num
  have hstep18 :
      hwGo (3 / 10) (1 / 10) (1 / 10) 24 42
      [0, 0, 0, 0, 0, 0]
      (-77509251914413259796104313522443251 / 8000000000000000000000000000000000) (-610559388380722816176517382363381863 / 240000000000000000000000000000000000)
      [(-161 / 24), (-10087 / 2400), (-185843 / 80000), (-22498343 / 24000000), (145479719 / 2400000000), (60594504691 / 80000000000), (29339488817191 / 24000000000000), (3627210033959897 / 2400000000000000), (133455884650321933 / 80000000000000000), (41470927972092009433 / 24000000000000000000), (4123071393682604982311 / 2400000000000000000000), (132752142313450322004979 / 80000000000000000000000), (37647323543260376448317479 / 24000000000000000000000000), (3499308043142026104764459993 / 2400000000000000000000000000), (106951059467298574785814155277 / 80000000000000000000000000000), (29087324491122403234341671842777 / 24000000000000000000000000000000), (2611610941204171269632961936926759 / 2400000000000000000000000000000000), (77509251914413259796104313522443251 / 80000000000000000000000000000000000), 0, 0, 0, 0, 0, 0] =
      hwGo (3 / 10) (1 / 10) (1 / 10) 24 43
      [0, 0, 0, 0, 0]
      (-20550858620691844270417527516256755751 / 2400000000000000000000000000000000000) (-52248428000632919787472797872228148121 / 24000000000000000000000000000000000000)
      [(-161 / 24), (-10087 / 2400), (-185843 / 80000), (-22498343 / 24000000), (145479719 / 2400000000), (60594504691 / 80000000000), (29339488817191 / 24000000000000), (3627210033959897 / 2400000000000000), (133455884650321933 / 80000000000000000), (41470927972092009433 / 24000000000000000000), (4123071393682604982311 / 2400000000000000000000), (132752142313450322004979 / 80000000000000000000000), (37647323543260376448317479 / 24000000000000000000000000), (3499308043142026104764459993 / 2400000000000000000000000000), (106951059467298574785814155277 / 80000000000000000000000000000), (29087324491122403234341671842777 / 24000000000000000000000000000000), (2611610941204171269632961936926759 / 2400000000000000000000000000000000), (77509251914413259796104313522443251 / 80000000000000000000000000000000000), (20550858620691844270417527516256755751 / 24000000000000000000000000000000000000), 0, 0, 0, 0, 0] := by
    rw [hwGo_step]; norm_num
  have hstep19 :
      hwGo (3 / 10) (1 / 10) (1 / 10) 24 43
      [0, 0, 0, 0, 0]
      (-20550858620691844270417527516256755751 / 2400000000000000000000000000000000000) (-52248428000632919787472797872228148121 / 24000000000000000000000000000000000000)
      [(-161 / 24), (-10087 / 2400), (-185843 / 80000), (-22498343 / 24000000), (145479719 / 2400000000), (60594504691 / 80000000000), (29339488817191 / 24000000000000), (3627210033959897 / 2400000000000000), (133455884650321933 / 80000000000000000), (41470927972092009433 / 24000000000000000000), (4123071393682604982311 / 2400000000000000000000), (132752142313450322004979 / 80000000000000000000000), (37647323543260376448317479 / 24000000000000000000000000), (3499308043142026104764459993 / 2400000000000000000000000000), (106951059467298574785814155277 / 80000000000000000000000000000), (29087324491122403234341671842777 / 24000000000000000000000000000000), (2611610941204171269632961936926759 / 2400000000000000000000000000000000), (77509251914413259796104313522443251 / 80000000000000000000000000000000000), (20550858620691844270417527516256755751 / 24000000000000000000000000000000000000), 0, 0, 0, 0, 0] =
      hwGo (3 / 10) (1 / 10) (1 / 10) 24 44
      [0, 0, 0, 0]
      (-1804299099452859537441536511243569939417 / 240000000000000000000000000000000000000) (-4451571757440637891272335568118427695207 / 2400000000000000000000000000000000000000)
      [(-161 / 24), (-10087 / 2400), (-185843 / 80000), (-22498343 / 24000000), (145479719 / 2400000000), (60594504691 / 80000000000), (29339488817191 / 24000000000000), (3627210033959897 / 2400000000000000), (133455884650321933 / 80000000000000000), (41470927972092009433 / 24000000000000000000), (4123071393682604982311 / 2400000000000000000000), (132752142313450322004979 / 80000000000000000000000), (37647323543260376448317479 / 24000000000000000000000000), (3499308043142026104764459993 / 2400000000000000000000000000), (106951059467298574785814155277 / 80000000000000000000000000000), (29087324491122403234341671842777 / 24000000000000000000000000000000), (2611610941204171269632961936926759 / 2400000000000000000000000000000000), (77509251914413259796104313522443251 / 80000000000000000000000000000000000), (20550858620691844270417527516256755751 / 24000000000000000000000000000000000000), (1804299099452859537441536511243569939417 / 2400000000000000000000000000000000000000), 0, 0, 0, 0] := by
    rw [hwGo_step]; norm_num
  have hstep20 :
      hwGo (3 / 10) (1 / 10) (1 / 10) 24 44
      [0, 0, 0, 0]
      (-1804299099452859537441536511243569939417 / 240000000000000000000000000000000000000) (-4451571757440637891272335568118427695207 / 2400000000000000000000000000000000000000)
      [(-161 / 24), (-10087 / 2400), (-185843 / 80000), (-22498343 / 24000000), (145479719 / 2400000000), (60594504691 / 80000000000), (29339488817191 / 24000000000000), (3627210033959897 / 2400000000000000), (133455884650321933 / 80000000000000000), (41470927972092009433 / 24000000000000000000), (4123071393682604982311 / 2400000000000000000000), (132752142313450322004979 / 80000000000000000000000), (37647323543260376448317479 / 24000000000000000000000000), (3499308043142026104764459993 / 2400000000000000000000000000), (106951059467298574785814155277 / 80000000000000000000000000000), (29087324491122403234341671842777 / 24000000000000000000000000000000), (2611610941204171269632961936926759 / 2400000000000000000000000000000000), (77509251914413259796104313522443251 / 80000000000000000000000000000000000), (20550858620691844270417527516256755751 / 24000000000000000000000000000000000000), (1804299099452859537441536511243569939417 / 2400000000000000000000000000000000000000), 0, 0, 0, 0] =
      hwGo (3 / 10) (1 / 10) (1 / 10) 24 45
      [0, 0, 0]
      (-52487313087928210953271301587959629875213 / 8000000000000000000000000000000000000000) (-377673487488156089330170454770180388252569 / 240000000000000000000000000000000000000000)
      [(-161 / 24), (-10087 / 2400), (-185843 / 80000), (-22498343 / 24000000), (145479719 / 2400000000), (60594504691 / 80000000000), (29339488817191 / 24000000000000), (3627210033959897 / 2400000000000000), (133455884650321933 / 80000000000000000), (41470927972092009433 / 24000000000000000000), (4123071393682604982311 / 2400000000000000000000), (132752142313450322004979 / 80000000000000000000000), (37647323543260376448317479 / 24000000000000000000000000), (3499308043142026104764459993 / 2400000000000000000000000000), (106951059467298574785814155277 / 80000000000000000000000000000), (29087324491122403234341671842777 / 24000000000000000000000000000000), (2611610941204171269632961936926759 / 2400000000000000000000000000000000), (77509251914413259796104313522443251 / 80000000000000000000000000000000000), (20550858620691844270417527516256755751 / 24000000000000000000000000000000000000), (1804299099452859537441536511243569939417 / 2400000000000000000000000000000000000000), (52487313087928210953271301587959629875213 / 80000000000000000000000000000000000000000), 0, 0, 0] := by
    rw [hwGo_step]; norm_num
  have hstep21 :
      hwGo (3 / 10) (1 / 10) (1 / 10) 24 45
      [0, 0, 0]
      (-52487313087928210953271301587959629875213 / 8000000000000000000000000000000000000000) (-377673487488156089330170454770180388252569 / 240000000000000000000000000000000000000000)
      [(-161 / 24), (-10087 / 2400), (-185843 / 80000), (-22498343 / 24000000), (145479719 / 2400000000), (60594504691 / 80000000000), (29339488817191 / 24000000000000), (3627210033959897 / 2400000000000000), (133455884650321933 / 80000000000000000), (41470927972092009433 / 24000000000000000000), (4123071393682604982311 / 2400000000000000000000), (132752142313450322004979 / 80000000000000000000000), (37647323543260376448317479 / 24000000000000000000000000), (3499308043142026104764459993 / 2400000000000000000000000000), (106951059467298574785814155277 / 80000000000000000000000000000), (29087324491122403234341671842777 / 24000000000000000000000000000000), (2611610941204171269632961936926759 / 2400000000000000000000000000000000), (77509251914413259796104313522443251 / 80000000000000000000000000000000000), (20550858620691844270417527516256755751 / 24000000000000000000000000000000000000), (1804299099452859537441536511243569939417 / 2400000000000000000000000000000000000000), (52487313087928210953271301587959629875213 / 80000000000000000000000000000000000000000), 0, 0, 0] =
      hwGo (3 / 10) (1 / 10) (1 / 10) 24 46
      [0, 0]
      (-13666050160882016925498166516862784991562713 / 2400000000000000000000000000000000000000000) (-31910470108437601679232116969791130971730023 / 24000000000000000000000000000000000000000000)
      [(-161 / 24), (-10087 / 2400), (-185843 / 80000), (-22498343 / 24000000), (145479719 / 2400000000), (60594504691 / 80000000000), (29339488817191 / 24000000000000), (3627210033959897 / 2400000000000000), (133455884650321933 / 80000000000000000), (41470927972092009433 / 24000000000000000000), (4123071393682604982311 / 2400000000000000000000), (132752142313450322004979 / 80000000000000000000000), (37647323543260376448317479 / 24000000000000000000000000), (3499308043142026104764459993 / 2400000000000000000000000000), (106951059467298574785814155277 / 80000000000000000000000000000), (29087324491122403234341671842777 / 24000000000000000000000000000000), (2611610941204171269632961936926759 / 2400000000000000000000000000000000), (77509251914413259796104313522443251 / 80000000000000000000000000000000000), (20550858620691844270417527516256755751 / 24000000000000000000000000000000000000), (1804299099452859537441536511243569939417 / 2400000000000000000000000000000000000000), (52487313087928210953271301587959629875213 / 80000000000000000000000000000000000000000), (13666050160882016925498166516862784991562713 / 24000000000000000000000000000000000000000000), 0, 0] := by
    rw [hwGo_step]; norm_num
  have hstep22 :
      hwGo (3 / 10) (1 / 10) (1 / 10) 24 46
      [0, 0]
      (-13666050160882016925498166516862784991562713 / 2400000000000000000000000000000000000000000) (-31910470108437601679232116969791130971730023 / 24000000000000000000000000000000000000000000)
      [(-161 / 24), (-10087 / 2400), (-185843 / 80000), (-22498343 / 24000000), (145479719 / 2400000000), (60594504691 / 80000000000), (29339488817191 / 24000000000000), (3627210033959897 / 2400000000000000), (133455884650321933 / 80000000000000000), (41470927972092009433 / 24000000000000000000), (4123071393682604982311 / 2400000000000000000000), (132752142313450322004979 / 80000000000000000000000), (37647323543260376448317479 / 24000000000000000000000000), (3499308043142026104764459993 / 2400000000000000000000000000), (106951059467298574785814155277 / 80000000000000000000000000000), (29087324491122403234341671842777 / 24000000000000000000000000000000), (2611610941204171269632961936926759 / 2400000000000000000000000000000000), (77509251914413259796104313522443251 / 80000000000000000000000000000000000), (20550858620691844270417527516256755751 / 24000000000000000000000000000000000000), (1804299099452859537441536511243569939417 / 2400000000000000000000000000000000000000), (52487313087928210953271301587959629875213 / 80000000000000000000000000000000000000000), (13666050160882016925498166516862784991562713 / 24000000000000000000000000000000000000000000), 0, 0] =
      hwGo (3 / 10) (1 / 10) (1 / 10) 24 47
      [0]
      (-1179996802020804396539496474968932866211500071 / 240000000000000000000000000000000000000000000) (-2685334095691986855120570350563856154510930841 / 2400000000000000000000000000000000000000000000)
      [(-161 / 24), (-10087 / 2400), (-185843 / 80000), (-22498343 / 24000000), (145479719 / 2400000000), (60594504691 / 80000000000), (29339488817191 / 24000000000000), (3627210033959897 / 2400000000000000), (133455884650321933 / 80000000000000000), (41470927972092009433 / 24000000000000000000), (4123071393682604982311 / 2400000000000000000000), (132752142313450322004979 / 80000000000000000000000), (37647323543260376448317479 / 24000000000000000000000000), (3499308043142026104764459993 / 2400000000000000000000000000), (106951059467298574785814155277 / 80000000000000000000000000000), (29087324491122403234341671842777 / 24000000000000000000000000000000), (2611610941204171269632961936926759 / 2400000000000000000000000000000000), (77509251914413259796104313522443251 / 80000000000000000000000000000000000), (20550858620691844270417527516256755751 / 24000000000000000000000000000000000000), (1804299099452859537441536511243569939417 / 2400000000000000000000000000000000000000), (52487313087928210953271301587959629875213 / 80000000000000000000000000000000000000000), (13666050160882016925498166516862784991562713 / 24000000000000000000000000000000000000000000), (1179996802020804396539496474968932866211500071 / 2400000000000000000000000000000000000000000000), 0] := by
    rw [hwGo_step]; norm_num
  have hstep23 :
      hwGo (3 / 10) (1 / 10) (1 / 10) 24 47
      [0]
      (-1179996802020804396539496474968932866211500071 / 240000000000000000000000000000000000000000000) (-2685334095691986855120570350563856154510930841 / 2400000000000000000000000000000000000000000000)
      [(-161 / 24), (-10087 / 2400), (-185843 / 80000), (-22498343 / 24000000), (145479719 / 2400000000), (60594504691 / 80000000000), (29339488817191 / 24000000000000), (3627210033959897 / 2400000000000000), (133455884650321933 / 80000000000000000), (41470927972092009433 / 24000000000000000000), (4123071393682604982311 / 2400000000000000000000), (132752142313450322004979 / 80000000000000000000000), (37647323543260376448317479 / 24000000000000000000000000), (3499308043142026104764459993 / 2400000000000000000000000000), (106951059467298574785814155277 / 80000000000000000000000000000), (29087324491122403234341671842777 / 24000000000000000000000000000000), (2611610941204171269632961936926759 / 2400000000000000000000000000000000), (77509251914413259796104313522443251 / 80000000000000000000000000000000000), (20550858620691844270417527516256755751 / 24000000000000000000000000000000000000), (1804299099452859537441536511243569939417 / 2400000000000000000000000000000000000000), (52487313087928210953271301587959629875213 / 80000000000000000000000000000000000000000), (13666050160882016925498166516862784991562713 / 24000000000000000000000000000000000000000000), (1179996802020804396539496474968932866211500071 / 2400000000000000000000000000000000000000000000), 0] =
      hwGo (3 / 10) (1 / 10) (1 / 10) 24 48
      []
      (-33799038270433405247869581900590764572127173619 / 8000000000000000000000000000000000000000000000) (-225077503221498593050510429755626061001215289447 / 240000000000000000000000000000000000000000000000)
      [(-161 / 24), (-10087 / 2400), (-185843 / 80000), (-22498343 / 24000000), (145479719 / 2400000000), (60594504691 / 80000000000), (29339488817191 / 24000000000000), (3627210033959897 / 2400000000000000), (133455884650321933 / 80000000000000000), (41470927972092009433 / 24000000000000000000), (4123071393682604982311 / 2400000000000000000000), (132752142313450322004979 / 80000000000000000000000), (37647323543260376448317479 / 24000000000000000000000000), (3499308043142026104764459993 / 2400000000000000000000000000), (106951059467298574785814155277 / 80000000000000000000000000000), (29087324491122403234341671842777 / 24000000000000000000000000000000), (2611610941204171269632961936926759 / 2400000000000000000000000000000000), (77509251914413259796104313522443251 / 80000000000000000000000000000000000), (20550858620691844270417527516256755751 / 24000000000000000000000000000000000000), (1804299099452859537441536511243569939417 / 2400000000000000000000000000000000000000), (52487313087928210953271301587959629875213 / 80000000000000000000000000000000000000000), (13666050160882016925498166516862784991562713 / 24000000000000000000000000000000000000000000), (1179996802020804396539496474968932866211500071 / 2400000000000000000000000000000000000000000000), (33799038270433405247869581900590764572127173619 / 80000000000000000000000000000000000000000000000)] := by
    rw [hwGo_step]; norm_num
  simp only [holt_winters]
  rw [if_neg h5, h3, h2, h4, h1,
    hstep0, hstep1, hstep2, hstep3, hstep4, hstep5, hstep6, hstep7, hstep8, hstep9,
    hstep10, hstep11, hstep12, hstep13, hstep14, hstep15, hstep16, hstep17, hstep18, hstep19,
    hstep20, hstep21, hstep22, hstep23, hwGo_nil]
  norm_num

/-- C2 (amended): with the five other algorithms, nonnegative input always
yields a nonnegative prediction (linear regression, seasonal decomposition
and ARIMA are floor-clamped; the moving average and exponential smoothing
are convex combinations of the input); holt_winters is also nonnegative on
series shorter than 48 points, where it delegates to exponential smoothing.
For longer series holt_winters carries no clamp (see the counterexample). -/
theorem algorithms_nonneg_except_holt_winters (df : List Row)
    (hne : df ≠ []) (hpos : ∀ r ∈ df, 0 ≤ r.consumption) :
    0 ≤ moving_average (consumptions df) 24
    ∧ 0 ≤ exponential_smoothing (consumptions df) (3 / 10)
    ∧ ((consumptions df).length < 48 →
        0 ≤ holt_winters (consumptions df) 24 (3 / 10) (1 / 10) (1 / 10))
    ∧ 0 ≤ arima_simple (consumptions df) 1 1 1
    ∧ 0 ≤ linear_regression_forecast df
    ∧ 0 ≤ seasonal_decomposition_forecast (consumptions df) 24 := by
  have hposc : ∀ x ∈ consumptions df, 0 ≤ x := by
    intro x hx
    rcases List.mem_map.mp hx with ⟨r, hr, he⟩
    rw [← he]
    exact hpos r hr
  have hes : 0 ≤ exponential_smoothing (consumptions df) (3 / 10) :=
    exponential_smoothing_nonneg _ _ (by norm_num) (by norm_num) hposc
  refine ⟨?_, hes, ?_, ?_, ?_, ?_⟩
  · rw [moving_average]
    split
    · exact npMean_nonneg _ hposc
    · exact npMean_nonneg _ (fun x hx => hposc x (List.drop_subset _ _ hx))
  · intro h
    rw [holt_winters_short_delegates _ h]
    exact hes
  · rw [arima_simple]
    split
    · exact npMean_nonneg _ hposc
    · simp only [Function.iterate_one]
      split
      · rename_i hout hin
        refine hposc _ (getD_mem _ _ ?_)
        simp only [not_lt] at hout
        omega
      · exact le_max_left _ _
  · rw [linear_regression_forecast]
    split
    · exact npMean_nonneg _ hposc
    · exact le_max_left _ _
  · rw [seasonal_decomposition_forecast]
    split
    · exact npMean_nonneg _ hposc
    · exact le_max_left _ _

/-- Witness for the amended C2 at the ten-row spike series. -/
theorem algorithms_nonneg_except_holt_winters_witness :
    spikeDf ≠ [] ∧ (∀ r ∈ spikeDf, 0 ≤ r.consumption)
    ∧ (0 ≤ moving_average (consumptions spikeDf) 24
      ∧ 0 ≤ exponential_smoothing (consumptions spikeDf) (3 / 10)
      ∧ ((consumptions spikeDf).length < 48 →
          0 ≤ holt_winters (consumptions spikeDf) 24 (3 / 10) (1 / 10) (1 / 10))
      ∧ 0 ≤ arima_simple (consumptions spikeDf) 1 1 1
      ∧ 0 ≤ linear_regression_forecast spikeDf
      ∧ 0 ≤ seasonal_decomposition_forecast (consumptions spikeDf) 24) :=
  ⟨by simp [spikeDf], by norm_num [spikeDf, spikeRow, List.forall_mem_cons],
   algorithms_nonneg_except_holt_winters spikeDf (by simp [spikeDf])
     (by norm_num [spikeDf, spikeRow, List.forall_mem_cons])⟩

lemma weighted_sum_between (p1 p2 p3 p4 p5 p6 : ℚ) :
    min p1 (min p2 (min p3 (min p4 (min p5 p6))))
      ≤ p1 * (15 / 100) + p2 * (20 / 100) + p3 * (25 / 100)
        + p4 * (5 / 100) + p5 * (20 / 100) + p6 * (15 / 100)
    ∧ p1 * (15 / 100) + p2 * (20 / 100) + p3 * (25 / 100)
        + p4 * (5 / 100) + p5 * (20 / 100) + p6 * (15 / 100)
      ≤ max p1 (max p2 (max p3 (max p4 (max p5 p6)))) := by
  have hm1 : min p1 (min p2 (min p3 (min p4 (min p5 p6)))) ≤ p1 := min_le_left _ _
  have hm2 : min p1 (min p2 (min p3 (min p4 (min p5 p6)))) ≤ p2 :=
    le_trans (min_le_right _ _) (min_le_left _ _)
  have hm3 : min p1 (min p2 (min p3 (min p4 (min p5 p6)))) ≤ p3 :=
    le_trans (min_le_right _ _) (le_trans (min_le_right _ _) (min_le_left _ _))
  have hm4 : min p1 (min p2 (min p3 (min p4 (min p5 p6)))) ≤ p4 :=
    le_trans (min_le_right _ _)
      (le_trans (min_le_right _ _) (le_trans (min_le_right _ _) (min_le_left _ _)))
  have hm5 : min p1 (min p2 (min p3 (min p4 (min p5 p6)))) ≤ p5 :=
    le_trans (min_le_right _ _) (le_trans (min_le_right _ _)
      (le_trans (min_le_right _ _) (le_trans (min_le_right _ _) (min_le_left _ _))))
  have hm6 : min p1 (min p2 (min p3 (min p4 (min p5 p6)))) ≤ p6 :=
    le_trans (min_le_right _ _) (le_trans (min_le_right _ _)
      (le_trans (min_le_right _ _) (le_trans (min_le_right _ _) (min_le_right _ _))))
  have hM1 : p1 ≤ max p1 (max p2 (max p3 (max p4 (max p5 p6)))) := le_max_left _ _
  have hM2 : p2 ≤ max p1 (max p2 (max p3 (max p4 (max p5 p6)))) :=
    le_trans (le_max_left _ _) (le_max_right _ _)
  have hM3 : p3 ≤ max p1 (max p2 (max p3 (max p4 (max p5 p6)))) :=
    le_trans (le_trans (le_max_left _ _) (le_max_right _ _)) (le_max_right _ _)
  have hM4 : p4 ≤ max p1 (max p2 (max p3 (max p4 (max p5 p6)))) :=
    le_trans (le_trans (le_trans (le_max_left _ _) (le_max_right _ _)) (le_max_right _ _))
      (le_max_right _ _)
  have hM5 : p5 ≤ max p1 (max p2 (max p3 (max p4 (max p5 p6)))) :=
    le_trans (le_trans (le_trans (le_trans (le_max_left _ _) (le_max_right _ _))
      (le_max_right _ _)) (le_max_right _ _)) (le_max_right _ _)
  have hM6 : p6 ≤ max p1 (max p2 (max p3 (max p4 (max p5 p6)))) :=
    le_trans (le_trans (le_trans (le_trans (le_max_right _ _) (le_max_right _ _))
      (le_max_right _ _)) (le_max_right _ _)) (le_max_right _ _)
  constructor
  · linarith
  · linarith

/-- C6: the weight table assigns 0.15, 0.20, 0.25, 0.20, 0.15, 0.05 to the
six algorithms, the weights sum to exactly 1 (hence within 1e-9 of 1), and
for every input series the ensemble prediction - the weighted sum of the six
individual predictions - lies between their minimum and their maximum. -/
theorem ensemble_weights_and_convexity :
    algorithmWeight Algorithm.moving_average = 15 / 100
    ∧ algorithmWeight Algorithm.exponential_smoothing = 20 / 100
    ∧ algorithmWeight Algorithm.holt_winters = 25 / 100
    ∧ algorithmWeight Algorithm.linear_regression = 20 / 100
    ∧ algorithmWeight Algorithm.seasonal_decomposition = 15 / 100
    ∧ algorithmWeight Algorithm.arima = 5 / 100
    ∧ ensembleWeightsSum = 1
    ∧ |ensembleWeightsSum - 1| ≤ 1 / 1000000000
    ∧ ∀ df : List Row,
      min (moving_average (consumptions df) 24)
        (min (exponential_smoothing (consumptions df) (3 / 10))
          (min (holt_winters (consumptions df) 24 (3 / 10) (1 / 10) (1 / 10))
            (min (arima_simple (consumptions df) 1 1 1)
              (min (linear_regression_forecast df)
                (seasonal_decomposition_forecast (consumptions df) 24)))))
        ≤ ensemble_prediction df
      ∧ ensemble_prediction df
        ≤ max (moving_average (consumptions df) 24)
          (max (exponential_smoothing (consumptions df) (3 / 10))
            (max (holt_winters (consumptions df) 24 (3 / 10) (1 / 10) (1 / 10))
              (max (arima_simple (consumptions df) 1 1 1)
                (max (linear_regression_forecast df)
                  (seasonal_decomposition_forecast (consumptions df) 24))))) := by
  refine ⟨rfl, rfl, rfl, rfl, rfl, rfl,
    by norm_num [ensembleWeightsSum, algorithmWeight],
    by norm_num [ensembleWeightsSum, algorithmWeight], ?_⟩
  intro df
  rw [ensemble_prediction]
  exact weighted_sum_between _ _ _ _ _ _

lemma spike_ma : moving_average (consumptions spikeDf) 24 = 10 := by
  norm_num [moving_average, consumptions, spikeDf, spikeRow, npMean]

lemma spike_es : exponential_smoothing (consumptions spikeDf) (3 / 10) = 30 := by
  norm_num [exponential_smoothing, consumptions, spikeDf, spikeRow]

lemma spike_hw : holt_winters (consumptions spikeDf) 24 (3 / 10) (1 / 10) (1 / 10) = 30 := by
  norm_num [holt_winters, exponential_smoothing, consumptions, spikeDf, spikeRow]

lemma spike_ar : arima_simple (consumptions spikeDf) 1 1 1 = 150 := by
  norm_num [arima_simple, diffList, consumptions, spikeDf, spikeRow, npMean,
    List.range', max_def]

lemma spike_lr : linear_regression_forecast spikeDf = 10 := by
  norm_num [linear_regression_forecast, lrIntercept, lrCoef, spikeDf, spikeRow,
    featureCols, npMean, dot, gaussSolve, gaussAux, max_def]

lemma spike_sd : seasonal_decomposition_forecast (consumptions spikeDf) 24 = 10 := by
  norm_num [seasonal_decomposition_forecast, consumptions, spikeDf, spikeRow, npMean]

lemma spike_preds : individual_predictions spikeDf = [10, 30, 30, 150, 10, 10] := by
  rw [individual_predictions, spike_ma, spike_es, spike_hw, spike_ar, spike_lr, spike_sd]

lemma spike_ensemble : ensemble_prediction spikeDf = 26 := by
  rw [ensemble_prediction, spike_ma, spike_es, spike_hw, spike_ar, spike_lr, spike_sd]
  norm_num

lemma spike_variance : prediction_variance_sq (individual_predictions spikeDf) = 2500 := by
  rw [spike_preds]
  norm_num [prediction_variance_sq, npMean]

lemma spike_std : prediction_std (individual_predictions spikeDf) = 50 := by
  rw [prediction_std, spike_variance]
  rw [show ((2500 : ℚ) : ℝ) = 50 ^ 2 by norm_num]
  exact Real.sqrt_sq (by norm_num)

/-- C7: prediction_variance is the population standard deviation of the six
individual predictions (np.std, equal to the standard deviation as the
specification words it), the confidence interval is the ensemble prediction
minus and plus 1.96 times that standard deviation, the interval brackets the
ensemble prediction whenever the standard deviation is positive, and it
collapses to the ensemble prediction when the standard deviation is zero. -/
theorem ensemble_confidence_interval (df : List Row) :
    prediction_std (individual_predictions df) = popStdSpec (individual_predictions df)
    ∧ confidence_lower df
      = ((ensemble_prediction df : ℚ) : ℝ)
        - (49 / 25) * prediction_std (individual_predictions df)
    ∧ confidence_upper df
      = ((ensemble_prediction df : ℚ) : ℝ)
        + (49 / 25) * prediction_std (individual_predictions df)
    ∧ (0 < prediction_std (individual_predictions df) →
        confidence_lower df ≤ ((ensemble_prediction df : ℚ) : ℝ)
        ∧ ((ensemble_prediction df : ℚ) : ℝ) ≤ confidence_upper df)
    ∧ (prediction_std (individual_predictions df) = 0 →
        confidence_lower df = ((ensemble_prediction df : ℚ) : ℝ)
        ∧ confidence_upper df = ((ensemble_prediction df : ℚ) : ℝ)) := by
  have hvar : prediction_variance_sq (individual_predictions df)
      = ((individual_predictions df).map
          (fun x => (x - (individual_predictions df).sum / (individual_predictions df).length)
            ^ 2)).sum / (individual_predictions df).length := by
    simp [prediction_variance_sq, npMean]
  refine ⟨by rw [prediction_std, popStdSpec, hvar], rfl, rfl, ?_, ?_⟩
  · intro h
    have h1 : (0 : ℝ) ≤ (49 / 25) * prediction_std (individual_predictions df) :=
      mul_nonneg (by norm_num) (le_of_lt h)
    constructor
    · rw [confidence_lower]
      linarith
    · rw [confidence_upper]
      linarith
  · intro h
    rw [confidence_lower, confidence_upper, h]
    norm_num

lemma const_preds : individual_predictions constantDf = [5, 5, 5, 5, 5, 5] := by
  rw [individual_predictions]
  norm_num [consumptions, constantDf, spikeRow, moving_average, exponential_smoothing,
    holt_winters, arima_simple, diffList, seasonal_decomposition_forecast,
    linear_regression_forecast, lrIntercept, lrCoef, featureCols, npMean, dot,
    gaussSolve, gaussAux, List.range', max_def]

lemma const_std : prediction_std (individual_predictions constantDf) = 0 := by
  have hv : prediction_variance_sq (individual_predictions constantDf) = 0 := by
    rw [const_preds]
    norm_num [prediction_variance_sq, npMean]
  rw [prediction_std, hv]
  simp

/-- Witness for C7: the interval collapses on the constant frame (standard
deviation 0) and brackets the ensemble prediction on the spike frame
(standard deviation 50 > 0). -/
theorem ensemble_confidence_interval_witness :
    prediction_std (individual_predictions constantDf) = 0
    ∧ confidence_lower constantDf = ((ensemble_prediction constantDf : ℚ) : ℝ)
    ∧ confidence_upper constantDf = ((ensemble_prediction constantDf : ℚ) : ℝ)
    ∧ 0 < prediction_std (individual_predictions spikeDf)
    ∧ confidence_lower spikeDf ≤ ((ensemble_prediction spikeDf : ℚ) : ℝ)
    ∧ ((ensemble_prediction spikeDf : ℚ) : ℝ) ≤ confidence_upper spikeDf := by
  have hpos : 0 < prediction_std (individual_predictions spikeDf) := by
    rw [spike_std]
    norm_num
  exact ⟨const_std,
    ((ensemble_confidence_interval constantDf).2.2.2.2 const_std).1,
    ((ensemble_confidence_interval constantDf).2.2.2.2 const_std).2,
    hpos,
    ((ensemble_confidence_interval spikeDf).2.2.2.1 hpos).1,
    ((ensemble_confidence_interval spikeDf).2.2.2.1 hpos).2⟩

/-- C10: on the spike frame (a valid series: ten rows, all consumption
values nonnegative) the lower confidence bound is strictly negative
(26 - 1.96 * 50 = -72): lines 181-184 apply no floor clamp to the interval
bounds, unlike the individual predictions. -/
theorem confidence_lower_negative :
    10 ≤ spikeDf.length
    ∧ (∀ r ∈ spikeDf, 0 ≤ r.consumption)
    ∧ confidence_lower spikeDf < 0 := by
  refine ⟨by norm_num [spikeDf],
    by norm_num [spikeDf, spikeRow, List.forall_mem_cons], ?_⟩
  rw [confidence_lower, spike_ensemble, spike_std]
  norm_num

lemma map_dot_zero (cols : List (List ℚ)) (yc : List ℚ) (h : ∀ v ∈ yc, v = 0) :
    ∀ x ∈ cols.map (fun cj => dot cj yc), x = 0 := by
  intro x hx
  rcases List.mem_map.mp hx with ⟨cj, _, he⟩
  rw [← he]
  exact dot_zero_right _ _ h

lemma dot_replicate_zero (a : List ℚ) (n : ℕ) : dot a (List.replicate n 0) = 0 :=
  dot_zero_right _ _ (fun x hx => List.eq_of_mem_replicate hx)

lemma gaussSolve_zero_rhs (A : List (List ℚ)) (b : List ℚ) (h : ∀ x ∈ b, x = 0) :
    gaussSolve A b = List.replicate A.length 0 := by
  rw [gaussSolve]
  exact gaussAux_zero _ _ (fun r hr => h r.2 (List.of_mem_zip hr).2)

lemma lrCoef_const (df : List Row) (c : ℚ) (hne : df ≠ [])
    (hconst : ∀ r ∈ df, r.consumption = c) : lrCoef df = List.replicate 5 0 := by
  have hmapne : df.map Row.consumption ≠ [] := by
    intro h0
    exact hne (List.map_eq_nil_iff.mp h0)
  have hmapc : ∀ x ∈ df.map Row.consumption, x = c := by
    intro x hx
    rcases List.mem_map.mp hx with ⟨r, hr, he⟩
    rw [← he]
    exact hconst r hr
  have hymean : npMean (df.map Row.consumption) = c := npMean_const _ _ hmapne hmapc
  rw [lrCoef]
  rw [hymean]
  have hyc : ∀ v ∈ (df.map Row.consumption).map (fun v => v - c), v = 0 := by
    intro v hv
    rcases List.mem_map.mp hv with ⟨x, hx, he⟩
    rw [← he, hmapc x hx]
    ring
  rw [gaussSolve_zero_rhs _ _ (map_dot_zero _ _ hyc)]
  congr 1

lemma lr_const (df : List Row) (c : ℚ) (hc : 0 ≤ c) (hlen : 10 ≤ df.length)
    (hconst : ∀ r ∈ df, r.consumption = c) : linear_regression_forecast df = c := by
  have hne : df ≠ [] := by
    intro h0
    rw [h0] at hlen
    simp at hlen
  have hmapne : df.map Row.consumption ≠ [] := by
    intro h0
    exact hne (List.map_eq_nil_iff.mp h0)
  have hmapc : ∀ x ∈ df.map Row.consumption, x = c := by
    intro x hx
    rcases List.mem_map.mp hx with ⟨r, hr, he⟩
    rw [← he]
    exact hconst r hr
  have hcoef := lrCoef_const df c hne hconst
  have hint : lrIntercept df = c := by
    rw [lrIntercept, hcoef, dot_replicate_zero, npMean_const _ _ hmapne hmapc]
    ring
  simp only [linear_regression_forecast]
  rw [if_neg (by omega), hint, hcoef, dot_replicate_zero, add_zero]
  exact max_eq_right hc

lemma sdTrend_length (data : List ℚ) (period : ℕ) :
    (sdTrend data period).length = data.length := by
  simp [sdTrend]

lemma sdTrend_const (data : List ℚ) (c : ℚ) (period : ℕ) (h : ∀ x ∈ data, x = c) :
    ∀ t ∈ sdTrend data period, t = c := by
  intro t ht
  rw [sdTrend] at ht
  rcases List.mem_map.mp ht with ⟨i, hi, he⟩
  rw [List.mem_range] at hi
  rw [← he]
  dsimp only
  refine npMean_const _ _ ?_ ?_
  · refine List.length_pos.mp ?_
    rw [List.length_take, List.length_drop]
    omega
  · intro x hx
    exact h x (List.drop_subset _ _ (List.take_subset _ _ hx))

lemma zipWith_sub_const (l1 l2 : List ℚ) (c : ℚ)
    (h1 : ∀ x ∈ l1, x = c) (h2 : ∀ x ∈ l2, x = c) :
    ∀ z ∈ l1.zipWith (fun a b => a - b) l2, z = 0 := by
  induction l1 generalizing l2 with
  | nil => simp
  | cons a t ih =>
    cases l2 with
    | nil => simp
    | cons b t2 =>
      intro z hz
      rw [List.zipWith_cons_cons] at hz
      rcases List.mem_cons.mp hz with h | h
      · rw [h, h1 a (by simp), h2 b (by simp)]
        ring
      · exact ih t2 (fun x hx => h1 x (by simp [hx])) (fun x hx => h2 x (by simp [hx])) z h

/-- C8: on every constant series of value c at least 0 with at least 72
points (three periods), each of the six algorithms predicts exactly c. -/
theorem constant_series_predictions (df : List Row) (c : ℚ) (hc : 0 ≤ c)
    (hlen : 72 ≤ df.length) (hconst : ∀ r ∈ df, r.consumption = c) :
    moving_average (consumptions df) 24 = c
    ∧ exponential_smoothing (consumptions df) (3 / 10) = c
    ∧ holt_winters (consumptions df) 24 (3 / 10) (1 / 10) (1 / 10) = c
    ∧ arima_simple (consumptions df) 1 1 1 = c
    ∧ linear_regression_forecast df = c
    ∧ seasonal_decomposition_forecast (consumptions df) 24 = c := by
  have hdlen : (consumptions df).length = df.length := by
    simp [consumptions]
  have hdc : ∀ x ∈ consumptions df, x = c := by
    intro x hx
    rcases List.mem_map.mp hx with ⟨r, hr, he⟩
    rw [← he]
    exact hconst r hr
  have hdne : consumptions df ≠ [] := by
    refine List.length_pos.mp ?_
    omega
  refine ⟨?_, ?_, ?_, ?_, lr_const df c hc (by omega) hconst, ?_⟩
  · rw [moving_average, if_neg (by omega)]
    refine npMean_const _ _ ?_ (fun x hx => hdc x (List.drop_subset _ _ hx))
    refine List.length_pos.mp ?_
    rw [List.length_drop]
    omega
  · rw [exponential_smoothing_const _ _ c hdc, if_neg hdne]
  · have hmean_take : npMean ((consumptions df).take 24) = c := by
      refine npMean_const _ _ ?_ (fun x hx => hdc x (List.take_subset _ _ hx))
      refine List.length_pos.mp ?_
      rw [List.length_take]
      omega
    have hmean_dt : npMean (((consumptions df).drop 24).take 24) = c := by
      refine npMean_const _ _ ?_
        (fun x hx => hdc x (List.drop_subset _ _ (List.take_subset _ _ hx)))
      refine List.length_pos.mp ?_
      rw [List.length_take, List.length_drop]
      omega
    simp only [holt_winters]
    rw [if_neg (by omega), hmean_take, hmean_dt]
    have htr : (c - c) / ((24 : ℕ) : ℚ) = 0 := by norm_num
    rw [htr]
    have hS : ∀ s ∈ ((consumptions df).take 24).map (fun v => v - c), s = 0 := by
      intro s hs
      rcases List.mem_map.mp hs with ⟨v, hv, he⟩
      rw [← he, hdc v (List.take_subset _ _ hv)]
      ring
    have hrest : ∀ x ∈ (consumptions df).drop 24, x = c :=
      fun x hx => hdc x (List.drop_subset _ _ hx)
    have hg := hwGo_const c ((consumptions df).drop 24) 24
      (((consumptions df).take 24).map (fun v => v - c)) hrest hS
    rw [hg.1, hg.2.1, getD_zero_of_all _ _ hg.2.2]
    ring
  · simp only [arima_simple, Function.iterate_one]
    rw [if_neg (by omega)]
    rw [if_neg (by rw [length_diffList]; omega)]
    have hmin : min (1 + 1) ((diffList (consumptions df)).length + 1) - 1 = 1 := by
      rw [length_diffList]
      omega
    rw [hmin]
    have hrange : List.range' 1 1 = [1] := rfl
    rw [hrange]
    simp only [List.map_cons, List.map_nil, List.sum_cons, List.sum_nil, pow_one]
    have hdl2 : (diffList (consumptions df)).length - 1 = (consumptions df).length - 2 := by
      rw [length_diffList]
      omega
    rw [hdl2, diffList_getD _ _ (by omega)]
    rw [getD_const _ c ((consumptions df).length - 1) (by omega) hdc,
      getD_const _ c ((consumptions df).length - 2 + 1) (by omega) hdc,
      getD_const _ c ((consumptions df).length - 2) (by omega) hdc]
    have harith : c + (1 / 2 : ℚ) * (c - c) + 0 = c := by ring
    rw [(by ring : c + ((1 / 2 : ℚ) * (c - c) + 0) = c)]
    exact max_eq_right hc
  · simp only [seasonal_decomposition_forecast]
    rw [if_neg (by omega)]
    have hTlen : (sdTrend (consumptions df) 24).length = (consumptions df).length :=
      sdTrend_length _ _
    have hTmem := sdTrend_const (consumptions df) c 24 hdc
    rw [if_pos (by rw [hTlen]; omega)]
    rw [getD_const _ c ((sdTrend (consumptions df) 24).length - 1) (by rw [hTlen]; omega) hTmem,
      getD_const _ c ((sdTrend (consumptions df) 24).length - 2) (by rw [hTlen]; omega) hTmem]
    have hvals : ∀ v ∈ everyNth 24
        (((consumptions df).zipWith (fun a b => a - b)
          (sdTrend (consumptions df) 24)).drop ((consumptions df).length % 24)), v = 0 := by
      intro v hv
      exact zipWith_sub_const _ _ c hdc hTmem v
        (List.drop_subset _ _ (mem_of_mem_everyNth _ _ _ hv))
    split
    · rw [(by ring : c + (c - c) + 0 = c)]
      exact max_eq_right hc
    · rw [npMean_const _ 0 ?_ hvals]
      · rw [(by ring : c + (c - c) + 0 = c)]
        exact max_eq_right hc
      · rename_i hvne
        intro h0
        rw [h0] at hvne
        simp at hvne

/-- Witness for C8 at the 72-row constant frame of value 5. -/
theorem constant_series_predictions_witness :
    (0 : ℚ) ≤ 5 ∧ 72 ≤ constant72.length ∧ (∀ r ∈ constant72, r.consumption = 5)
    ∧ (moving_average (consumptions constant72) 24 = 5
      ∧ exponential_smoothing (consumptions constant72) (3 / 10) = 5
      ∧ holt_winters (consumptions constant72) 24 (3 / 10) (1 / 10) (1 / 10) = 5
      ∧ arima_simple (consumptions constant72) 1 1 1 = 5
      ∧ linear_regression_forecast constant72 = 5
      ∧ seasonal_decomposition_forecast (consumptions constant72) 24 = 5) :=
  ⟨by norm_num, by simp [constant72],
   fun r hr => by rw [List.eq_of_mem_replicate hr]; rfl,
   constant_series_predictions constant72 5 (by norm_num) (by simp [constant72])
     (fun r hr => by rw [List.eq_of_mem_replicate hr]; rfl)⟩
